import Mathlib

/-!
Shallow embedding of `scripts/python/isothermal_monolith_catalysis.py`
(the `Isothermal_Monolith_Simulator` class), together with proofs about
the setup prerequisites, boundary-condition assignment, stoichiometry,
zoning, and the staged continuation bookkeeping of the simulator
initialization routine.

Conventions of the embedding:
* Python floats become `ℚ`; the numerical floor 1e-20 is the rational
  literal `1e-20`.
* Species, site and reaction names stay `String` as in the source; ages
  and isothermal temperature labels are `ℕ`.
* The mutable pyomo model becomes the record `Model`.  A pyomo `Var`
  family becomes a `VarF`: a value map plus a fixed-flag map over the
  full five-dimensional index space `VIdx`.
* A pyomo slice assignment `x[:, a, :, :, :].fix()` becomes a pointwise
  conditional update of the corresponding map; python loops that write a
  distinct key per iteration are embedded the same way, while genuinely
  sequential loops (the time-dependent boundary-condition scan) are
  embedded as structural recursion over the time grid.
* `print(...); exit()` becomes `Except.error (message, state at exit)`,
  so an aborted call records the state the process died in.
* The external ipopt solve is an opaque `solve : Model → Model`
  parameter; `SolverOK` records the frame conditions of a solver call
  (fixed variables and fixed flags are not changed by the solver).
-/

namespace CatsSpec

/-- Index of one instance of a five-dimensional pyomo variable family:
`(species, age, temperature, axial location, time)`. -/
structure VIdx where
  spec : String
  age : ℕ
  temp : ℕ
  z : ℚ
  t : ℚ
deriving DecidableEq

/-- One pyomo `Var` family: current values and per-instance fixed flags. -/
@[ext]
structure VarF where
  val : VIdx → ℚ
  fix : VIdx → Bool

/-- The numerical floor used by the source for concentrations: the float
literal 1e-20, written as a normalized quotient so that it evaluates. -/
def floor20 : ℚ := mkRat 1 (10 ^ 20)

/-- Update a `String`-keyed boolean map at one key. -/
def setB (f : String → Bool) (k : String) (b : Bool) : String → Bool :=
  fun x => if x = k then b else f x

/-- Update a `String`-keyed rational map at one key. -/
def setQ (f : String → ℚ) (k : String) (v : ℚ) : String → ℚ :=
  fun x => if x = k then v else f x

/-- Pyomo `Var.fix()` applied to every instance satisfying `p` (a pyomo slice). -/
def fixP (w : VarF) (p : VIdx → Prop) [DecidablePred p] : VarF :=
  { val := w.val, fix := fun i => if p i then true else w.fix i }

/-- Pyomo `Var.unfix()` applied to every instance satisfying `p`. -/
def unfixP (w : VarF) (p : VIdx → Prop) [DecidablePred p] : VarF :=
  { val := w.val, fix := fun i => if p i then false else w.fix i }

/-- Pyomo `Constraint.deactivate()` on every instance satisfying `p`. -/
def deactP (a : VIdx → Bool) (p : VIdx → Prop) [DecidablePred p] : VIdx → Bool :=
  fun i => if p i then false else a i

/-- Pyomo `Constraint.activate()` on every instance satisfying `p`. -/
def actP (a : VIdx → Bool) (p : VIdx → Prop) [DecidablePred p] : VIdx → Bool :=
  fun i => if p i then true else a i

/-- Pyomo `set_value(x)` followed by `fix()` on every instance satisfying `p`. -/
def setFixVar (w : VarF) (p : VIdx → Prop) [DecidablePred p] (x : ℚ) : VarF :=
  { val := fun i => if p i then x else w.val i,
    fix := fun i => if p i then true else w.fix i }

/-- The whole mutable state of an `Isothermal_Monolith_Simulator`:
its tracking booleans, index sets, parameters, variables and
constraint-activation flags. -/
structure Model where
  -- tracking booleans from `__init__`
  isBoundsSet : Bool
  isTimesSet : Bool
  isAgeSet : Bool
  isTempSet : Bool
  isGasSpecSet : Bool
  isSurfSpecSet : Bool
  isSitesSet : Bool
  isRxnSet : Bool
  isRxnBuilt : Bool
  isConBuilt : Bool
  isDiscrete : Bool
  isObjectiveSet : Bool
  isInitialSet : String → Bool
  isBoundarySet : String → Bool
  -- index sets (ordered lists once discretized)
  z : List ℚ
  t : List ℚ
  age_set : List ℕ
  T_set : List ℕ
  gas_set : List String
  surf_set : List String
  site_set : List String
  all_rxns : List String
  arrhenius_rxns : List String
  equ_arrhenius_rxns : List String
  all_species_set : List String
  -- bookkeeping dictionaries
  age_list : List (String × ℕ)
  gas_list : List (String × String × String × String)
  surf_list : List String
  site_list : List String
  rxn_list : List String
  rxn_fixed : String → Bool
  rxn_reactants : String → List String
  rxn_products : String → List String
  -- scalar parameters
  eb : ℚ
  ew : ℚ
  v : ℚ
  km : ℚ
  Ga : ℚ
  -- indexed parameters
  TP : ℕ → ℕ → ℚ → ℚ
  ageP : ℕ → ℚ → ℕ
  Cb_in : String → ℕ → ℕ → ℚ → ℚ
  Smax : String → ℕ → ℚ → ℚ → ℚ
  u_C : String → String → ℚ → ℚ
  u_q : String → String → ℚ → ℚ
  u_S : String → String → ℚ
  rxn_orders : String → String → ℚ
  -- kinetic variables (value and fixed flag per reaction name)
  A : String → ℚ
  B : String → ℚ
  E : String → ℚ
  Af : String → ℚ
  Ef : String → ℚ
  dH : String → ℚ
  dS : String → ℚ
  Afixed : String → Bool
  Bfixed : String → Bool
  Efixed : String → Bool
  Affixed : String → Bool
  Effixed : String → Bool
  dHfixed : String → Bool
  dSfixed : String → Bool
  -- five-dimensional variable families
  Cb : VarF
  C : VarF
  q : VarF
  S : VarF
  dCb_dz : VarF
  dCb_dt : VarF
  dC_dt : VarF
  dq_dt : VarF
  -- constraint activation flags
  bulk_cons : VIdx → Bool
  pore_cons : VIdx → Bool
  surf_cons : VIdx → Bool
  site_cons : VIdx → Bool
  dCb_dz_disc_eq : VIdx → Bool
  dCb_dt_disc_eq : VIdx → Bool
  dC_dt_disc_eq : VIdx → Bool
  dq_dt_disc_eq : VIdx → Bool

/-- The state built by `Isothermal_Monolith_Simulator.__init__`: default
parameter values, all tracking booleans `False`, empty index sets. -/
def init_model : Model where
  isBoundsSet := false
  isTimesSet := false
  isAgeSet := false
  isTempSet := false
  isGasSpecSet := false
  isSurfSpecSet := false
  isSitesSet := false
  isRxnSet := false
  isRxnBuilt := false
  isConBuilt := false
  isDiscrete := false
  isObjectiveSet := false
  isInitialSet := fun _ => false
  isBoundarySet := fun _ => false
  z := []
  t := []
  age_set := []
  T_set := []
  gas_set := []
  surf_set := []
  site_set := []
  all_rxns := []
  arrhenius_rxns := []
  equ_arrhenius_rxns := []
  all_species_set := []
  age_list := []
  gas_list := []
  surf_list := []
  site_list := []
  rxn_list := []
  rxn_fixed := fun _ => false
  rxn_reactants := fun _ => []
  rxn_products := fun _ => []
  eb := mkRat 3309 10000
  ew := mkRat 2 10
  v := 15110
  km := mkRat 112 100
  Ga := mkRat 5757541 1000
  TP := fun _ _ _ => 298
  ageP := fun a _ => a
  Cb_in := fun _ _ _ _ => floor20
  Smax := fun _ _ _ _ => floor20
  u_C := fun _ _ _ => 0
  u_q := fun _ _ _ => 0
  u_S := fun _ _ => 0
  rxn_orders := fun _ _ => 0
  A := fun _ => 0
  B := fun _ => 0
  E := fun _ => 0
  Af := fun _ => 0
  Ef := fun _ => 0
  dH := fun _ => 0
  dS := fun _ => 0
  Afixed := fun _ => false
  Bfixed := fun _ => false
  Efixed := fun _ => false
  Affixed := fun _ => false
  Effixed := fun _ => false
  dHfixed := fun _ => false
  dSfixed := fun _ => false
  Cb := ⟨fun _ => floor20, fun _ => false⟩
  C := ⟨fun _ => floor20, fun _ => false⟩
  q := ⟨fun _ => floor20, fun _ => false⟩
  S := ⟨fun _ => floor20, fun _ => false⟩
  dCb_dz := ⟨fun _ => 0, fun _ => false⟩
  dCb_dt := ⟨fun _ => 0, fun _ => false⟩
  dC_dt := ⟨fun _ => 0, fun _ => false⟩
  dq_dt := ⟨fun _ => 0, fun _ => false⟩
  bulk_cons := fun _ => true
  pore_cons := fun _ => true
  surf_cons := fun _ => true
  site_cons := fun _ => true
  dCb_dz_disc_eq := fun _ => true
  dCb_dt_disc_eq := fun _ => true
  dC_dt_disc_eq := fun _ => true
  dq_dt_disc_eq := fun _ => true

/-! ## Setup functions (index-space construction, `add_*`) -/

/-- Embeds `add_axial_dim`: registers the spatial continuous set (bounds or an
explicit point list) and raises `isBoundsSet`. -/
def add_axial_dim (start_point end_point : ℚ) (point_list : List ℚ) (m : Model) : Model :=
  { m with z := if point_list = [] then [start_point, end_point] else point_list,
           isBoundsSet := true }

/-- Embeds `add_temporal_dim`: registers the temporal continuous set and raises
`isTimesSet`. -/
def add_temporal_dim (start_point end_point : ℚ) (point_list : List ℚ) (m : Model) : Model :=
  { m with t := if point_list = [] then [start_point, end_point] else point_list,
           isTimesSet := true }

/-- Embeds `add_age_set` (list form): requires the time dimension, then records
the `age_i`-keyed dictionary, the age set, and `model.age[age, time] = age`. -/
def add_age_set (ages : List ℕ) (m : Model) : Except (String × Model) Model :=
  if m.isTimesSet = false then
    .error ("Error! Time dimension must be set first!", m)
  else
    .ok { m with
      age_list := m.age_list ++
        ((List.range ages.length).zip ages).map (fun pr => ("age_" ++ toString pr.1, pr.2)),
      age_set := ages,
      ageP := fun a _tv => a,
      isAgeSet := true }

/-- Embeds `add_temperature_set` (list form): requires time and ages, then records
the temperature set and initializes `model.T` to the 298 K placeholder. -/
def add_temperature_set (temps : List ℕ) (m : Model) : Except (String × Model) Model :=
  if m.isTimesSet = false then
    .error ("Error! Time dimension must be set first!", m)
  else if m.isAgeSet = false then
    .error ("Error! Catalyst ages must be set first!", m)
  else
    .ok { m with T_set := temps, TP := fun _a _tp _tv => 298, isTempSet := true }

/-- Embeds `add_gas_species` (list form): requires time+bounds and temperatures+ages,
then registers the gas set, allocates `Cb`, `C` (value 1e-20, unfixed),
`Cb_in` (1e-20), the derivative variables, and clears the per-species
boundary flags. -/
def add_gas_species (gas_species : List String) (m : Model) : Except (String × Model) Model :=
  if m.isTimesSet = false ∨ m.isBoundsSet = false then
    .error ("Error! Cannot specify gas species until the time and bounds are set", m)
  else if m.isTempSet = false ∨ m.isAgeSet = false then
    .error ("Error! Cannot specify gas species until the temperatures and ages are set", m)
  else
    .ok { m with
      gas_list := m.gas_list ++ gas_species.map (fun s => (s, s ++ "_b", s ++ "_w", s ++ "_in")),
      gas_set := gas_species,
      Cb := ⟨fun _ => floor20, fun _ => false⟩,
      C := ⟨fun _ => floor20, fun _ => false⟩,
      Cb_in := fun _ _ _ _ => floor20,
      isGasSpecSet := true,
      isBoundarySet := fun sp => if sp ∈ gas_species then false else m.isBoundarySet sp,
      dCb_dz := ⟨fun _ => 0, fun _ => false⟩,
      dCb_dt := ⟨fun _ => 0, fun _ => false⟩,
      dC_dt := ⟨fun _ => 0, fun _ => false⟩ }

/-- Embeds `add_surface_species` (list form): requires gas species, then registers
the surface set and allocates `q` and `dq_dt`. -/
def add_surface_species (surf_species : List String) (m : Model) : Except (String × Model) Model :=
  if m.isGasSpecSet = false then
    .error ("Error! Cannot specify surface species without having gas species", m)
  else
    .ok { m with
      surf_list := m.surf_list ++ surf_species,
      surf_set := surf_species,
      q := ⟨fun _ => floor20, fun _ => false⟩,
      isSurfSpecSet := true,
      dq_dt := ⟨fun _ => 0, fun _ => false⟩ }

/-- Embeds `add_surface_sites` (list form): requires surface species, then registers
the site set and allocates `S`, `Smax` and the occupancy table `u_S`. -/
def add_surface_sites (sites : List String) (m : Model) : Except (String × Model) Model :=
  if m.isSurfSpecSet = false then
    .error ("Error! Cannot specify surface sites without having surface species", m)
  else
    .ok { m with
      site_list := m.site_list ++ sites,
      site_set := sites,
      S := ⟨fun _ => floor20, fun _ => false⟩,
      Smax := fun _ _ _ _ => floor20,
      u_S := fun _ _ => 0,
      isSitesSet := true }

/-! ## Parameter setters -/

/-- Embeds `set_bulk_porosity`: domain check `0 ≤ eb ≤ 1`, then store. -/
def set_bulk_porosity (eb : ℚ) (m : Model) : Except (String × Model) Model :=
  if eb > 1 ∨ eb < 0 then
    .error ("Error! Porosity must be a value between 0 and 1", m)
  else
    .ok { m with eb := eb }

/-- Embeds `set_washcoat_porosity`: domain check `0 ≤ ew ≤ 1`, then store. -/
def set_washcoat_porosity (ew : ℚ) (m : Model) : Except (String × Model) Model :=
  if ew > 1 ∨ ew < 0 then
    .error ("Error! Porosity must be a value between 0 and 1", m)
  else
    .ok { m with ew := ew }

/-- Embeds `set_site_density`: requires sites; negative densities abort; values
below the floor are clamped to `1e-20`; then `Smax[site, age, loc, time]`
is written for every grid location and time. -/
def set_site_density (site : String) (age : ℕ) (value : ℚ) (m : Model) :
    Except (String × Model) Model :=
  if m.isSitesSet = false then
    .error ("Error! Did not specify the existance of surface sites", m)
  else if value < 0 then
    .error ("Error! Cannot have a negative concentration of sites", m)
  else
    let v2 := if value < floor20 then floor20 else value
    .ok { m with
      Smax := fun st a lc tv =>
        if st = site ∧ a = age ∧ lc ∈ m.z ∧ tv ∈ m.t then v2 else m.Smax st a lc tv }

/-- Embeds `set_const_IC`: requires discretization; negative concentrations abort;
sub-floor values are clamped to `1e-20`; gas species get `Cb` and `C` set
and fixed at the first time point (all locations), surface species get `q`
set and fixed there, sites only raise the initial flag. -/
def set_const_IC (spec : String) (age temp : ℕ) (value : ℚ) (m : Model) :
    Except (String × Model) Model :=
  if m.isDiscrete = false then
    .error ("Error! User should call the discretizer before setting initial conditions", m)
  else if value < 0 then
    .error ("Error! Concentrations cannot be negative", m)
  else
    let v2 := if value < floor20 then floor20 else value
    let t0 := m.t.headI
    let pIC : VIdx → Prop := fun i => i.spec = spec ∧ i.age = age ∧ i.temp = temp ∧ i.t = t0
    let m1 :=
      if spec ∈ m.gas_set then
        { m with Cb := setFixVar m.Cb pIC v2, C := setFixVar m.C pIC v2,
                 isInitialSet := setB m.isInitialSet spec true }
      else m
    let m2 :=
      if m1.isSurfSpecSet then
        let m2a :=
          if spec ∈ m1.surf_set then
            { m1 with q := setFixVar m1.q pIC v2, isInitialSet := setB m1.isInitialSet spec true }
          else m1
        if m2a.isSitesSet then
          if spec ∈ m2a.site_set then
            { m2a with isInitialSet := setB m2a.isInitialSet spec true }
          else m2a
        else m2a
      else m1
    .ok m2

/-- Embeds `set_const_BC`: only gas species, only after `set_const_IC`; negative
values abort; sub-floor values are clamped; then `Cb_in` is written at all
times and `Cb` is set and fixed at the first axial location for all times. -/
def set_const_BC (spec : String) (age temp : ℕ) (value : ℚ) (m : Model) :
    Except (String × Model) Model :=
  if spec ∉ m.gas_set then
    .error ("Error! Cannot specify boundary value for non-gas species", m)
  else if m.isInitialSet spec = false then
    .error ("Error! User must specify initial conditions before boundary conditions", m)
  else if value < 0 then
    .error ("Error! Concentrations cannot be negative", m)
  else
    let v2 := if value < floor20 then floor20 else value
    .ok { m with
      Cb_in := fun sp a tp tv =>
        if sp = spec ∧ a = age ∧ tp = temp then v2 else m.Cb_in sp a tp tv,
      Cb := setFixVar m.Cb
        (fun i => i.spec = spec ∧ i.age = age ∧ i.temp = temp ∧ i.z = m.z.headI) v2,
      isBoundarySet := setB m.isBoundarySet spec true }

/-- One write step of `set_time_dependent_BC`: store the current boundary
value into `Cb_in` at `tt` and into `Cb` at the first axial location at
`tt`, fixing the latter. -/
def td_bc_write (spec : String) (age temp : ℕ) (tt bcv : ℚ) (m : Model) : Model :=
  { m with
    Cb_in := fun sp a tp tv =>
      if sp = spec ∧ a = age ∧ tp = temp ∧ tv = tt then bcv else m.Cb_in sp a tp tv,
    Cb := setFixVar m.Cb
      (fun i => i.spec = spec ∧ i.age = age ∧ i.temp = temp ∧ i.z = m.z.headI ∧ i.t = tt) bcv }

/-- The time scan of `set_time_dependent_BC` over the discretized grid.
State: remaining grid times, the pair index `i`, the current switch time
`cbt` and the current boundary value `cbv`.  When `time >= cbt` the next
pair value is taken (negative aborts, sub-floor clamps; a missing pair is
the python `except: pass`), the write happens, `i` advances and the switch
time is refreshed when a pair exists at the new index. -/
def td_bc_loop (spec : String) (age temp : ℕ) (pairs : List (ℚ × ℚ)) :
    List ℚ → ℕ → ℚ → ℚ → Model → Except (String × Model) Model
  | [], _, _, _, m => .ok m
  | tt :: rest, i, cbt, cbv, m =>
    if tt ≥ cbt then
      match pairs.get? i with
      | some pr =>
        if pr.2 < 0 then
          .error ("Error! Concentrations cannot be negative", m)
        else
          let cbv2 := if pr.2 < floor20 then floor20 else pr.2
          let m2 := td_bc_write spec age temp tt cbv2 m
          let cbt2 := match pairs.get? (i + 1) with
            | some pr2 => pr2.1
            | none => cbt
          td_bc_loop spec age temp pairs rest (i + 1) cbt2 cbv2 m2
      | none =>
        let m2 := td_bc_write spec age temp tt cbv m
        let cbt2 := match pairs.get? (i + 1) with
          | some pr2 => pr2.1
          | none => cbt
        td_bc_loop spec age temp pairs rest (i + 1) cbt2 cbv m2
    else
      td_bc_loop spec age temp pairs rest i cbt cbv (td_bc_write spec age temp tt cbv m)

/-- Embeds `set_time_dependent_BC`: only gas species, only after `set_const_IC`;
an empty pair list dies on the `time_value_pairs[0]` access; a negative
`initial_value` aborts and a sub-floor one is clamped; `Cb_in` at the first
time gets the initial value, then the grid is scanned by `td_bc_loop`, and
on success the species boundary flag is raised. -/
def set_time_dependent_BC (spec : String) (age temp : ℕ) (pairs : List (ℚ × ℚ))
    (initial_value : ℚ) (m : Model) : Except (String × Model) Model :=
  if spec ∉ m.gas_set then
    .error ("Error! Cannot specify boundary value for non-gas species", m)
  else if m.isInitialSet spec = false then
    .error ("Error! User must specify initial conditions before boundary conditions", m)
  else
    match pairs with
    | [] => .error ("IndexError", m)
    | p0 :: _ =>
      if initial_value < 0 then
        .error ("Error! Concentrations cannot be negative", m)
      else
        let iv := if initial_value < floor20 then floor20 else initial_value
        let m1 := { m with
          Cb_in := fun sp a tp tv =>
            if sp = spec ∧ a = age ∧ tp = temp ∧ tv = m.t.headI then iv
            else m.Cb_in sp a tp tv }
        (td_bc_loop spec age temp pairs m1.t 0 p0.1 p0.2 m1).map
          (fun mm => { mm with isBoundarySet := setB mm.isBoundarySet spec true })

/-! ## Reaction network -/

/-- The `info` dictionary passed to `set_reaction_info`: the four required
fields, each a partial `String`-keyed map (`none` = key absent). -/
structure RxnInfo where
  params : String → Option ℚ
  mol_reactants : String → Option ℚ
  mol_products : String → Option ℚ
  rxn_orders : String → Option ℚ

/-- The parameter-setting part of `set_reaction_info`.  For an Arrhenius
reaction, `A` and `E` are required dictionary accesses (a missing key is
the python `KeyError` crash, carrying the state mutated so far); the `B`
access sits in a `try`, and on `except` the source stores `B = 0` and
fixes `B`.  For an equilibrium-Arrhenius reaction `A`, `E`, `dH`, `dS`
are all required. -/
def sri_params (rxn : String) (info : RxnInfo) (m : Model) :
    Except (String × Model) Model :=
  if rxn ∈ m.arrhenius_rxns then
    match info.params "A" with
    | none => .error ("KeyError: A", m)
    | some a =>
      let m1 := { m with A := setQ m.A rxn a }
      match info.params "E" with
      | none => .error ("KeyError: E", m1)
      | some e =>
        let m2 := { m1 with E := setQ m1.E rxn e }
        match info.params "B" with
        | some b => .ok { m2 with B := setQ m2.B rxn b }
        | none => .ok { m2 with B := setQ m2.B rxn 0, Bfixed := setB m2.Bfixed rxn true }
  else if rxn ∈ m.equ_arrhenius_rxns then
    match info.params "A" with
    | none => .error ("KeyError: A", m)
    | some a =>
      let m1 := { m with Af := setQ m.Af rxn a }
      match info.params "E" with
      | none => .error ("KeyError: E", m1)
      | some e =>
        let m2 := { m1 with Ef := setQ m1.Ef rxn e }
        match info.params "dH" with
        | none => .error ("KeyError: dH", m2)
        | some dh =>
          let m3 := { m2 with dH := setQ m2.dH rxn dh }
          match info.params "dS" with
          | none => .error ("KeyError: dS", m3)
          | some ds => .ok { m3 with dS := setQ m3.dS rxn ds }
  else .error ("Error! Given reaction name does not exist in model", m)

/-- The net stoichiometric sum computed by `set_reaction_info` for one
species: `+ product coefficient - reactant coefficient`, an absent entry
contributing 0. -/
def netStoich (info : RxnInfo) (sp : String) : ℚ :=
  (info.mol_products sp).getD 0 - (info.mol_reactants sp).getD 0

/-- The stoichiometry part of `set_reaction_info`: records the per-reaction
reactant and product subsets, broadcasts the signed net coefficient into
`u_C` (gas species) and, when surface species exist, `u_q` (surface
species) at every axial location, then stores order exponents only for
species that are actual reactants or products, and raises `isRxnBuilt`. -/
def sri_stoich (rxn : String) (info : RxnInfo) (m : Model) : Model :=
  let react_list := m.all_species_set.filter (fun sp => (info.mol_reactants sp).isSome)
  let prod_list := m.all_species_set.filter (fun sp => (info.mol_products sp).isSome)
  let m1 := { m with
    rxn_reactants := fun r => if r = rxn then react_list else m.rxn_reactants r,
    rxn_products := fun r => if r = rxn then prod_list else m.rxn_products r }
  let m2 := { m1 with
    u_C := fun sp r lc =>
      if sp ∈ m1.gas_set ∧ r = rxn ∧ lc ∈ m1.z then netStoich info sp
      else m1.u_C sp r lc }
  let m3 :=
    if m2.isSurfSpecSet then
      { m2 with
        u_q := fun sp r lc =>
          if sp ∈ m2.surf_set ∧ r = rxn ∧ lc ∈ m2.z then netStoich info sp
          else m2.u_q sp r lc }
    else m2
  { m3 with
    rxn_orders := fun r sp =>
      if r = rxn ∧ sp ∈ m3.all_species_set ∧ (info.rxn_orders sp).isSome ∧
          ((info.mol_reactants sp).isSome ∨ (info.mol_products sp).isSome) then
        (info.rxn_orders sp).getD 0
      else m3.rxn_orders r sp,
    isRxnBuilt := true }

/-- Embeds `set_reaction_info`: requires declared reactions, then sets the kinetic
parameters (`sri_params`) and the stoichiometry/order information
(`sri_stoich`).  The four-field presence checks of the source are enforced
by the `RxnInfo` structure itself. -/
def set_reaction_info (rxn : String) (info : RxnInfo) (m : Model) :
    Except (String × Model) Model :=
  if m.isRxnSet = false then
    .error ("Error! Cannot set reaction parameters before declaring reaction types", m)
  else
    (sri_params rxn info m).map (fun m1 => sri_stoich rxn info m1)

/-- The zeroing condition of `set_reaction_zone` at one location: the
normalized zone is `[start_loc, end_loc]` and a location is zeroed exactly
when its inside-flag equals `isNotActive`. -/
def zoneZeroes (zone : ℚ × ℚ) (isNotActive : Bool) (lc : ℚ) : Prop :=
  let start_loc := if zone.1 > zone.2 then zone.2 else zone.1
  let end_loc := if zone.1 > zone.2 then zone.1 else zone.2
  (decide (start_loc ≤ lc ∧ lc ≤ end_loc)) = isNotActive

instance (zone : ℚ × ℚ) (b : Bool) (lc : ℚ) : Decidable (zoneZeroes zone b lc) := by
  unfold zoneZeroes; infer_instance

/-- Embeds `set_reaction_zone`: requires discretization and a known reaction id;
normalizes the zone endpoints, then zeroes `u_C` for every gas species and
(when present) `u_q` for every surface species at every grid location whose
inside-flag equals `isNotActive`. -/
def set_reaction_zone (rxn : String) (zone : ℚ × ℚ) (isNotActive : Bool) (m : Model) :
    Except (String × Model) Model :=
  if m.isDiscrete = false then
    .error ("Error! User should call the discretizer before setting a reaction zone", m)
  else if rxn ∉ m.all_rxns then
    .error ("Error! Invalid reaction ID given", m)
  else
    let m1 := { m with
      u_C := fun sp r lc =>
        if sp ∈ m.gas_set ∧ r = rxn ∧ lc ∈ m.z ∧ zoneZeroes zone isNotActive lc then 0
        else m.u_C sp r lc }
    .ok <|
      if m1.isSurfSpecSet then
        { m1 with
          u_q := fun sp r lc =>
            if sp ∈ m1.surf_set ∧ r = rxn ∧ lc ∈ m1.z ∧ zoneZeroes zone isNotActive lc then 0
            else m1.u_q sp r lc }
      else m1

/-- Embeds `fix_all_reactions`: fixes `A`, `B`, `E` of every Arrhenius reaction and
`Af`, `Ef`, `dH`, `dS` of every equilibrium-Arrhenius reaction, and marks
every such reaction as fixed in `rxn_list`. -/
def fix_all_reactions (m : Model) : Model :=
  { m with
    Afixed := fun x => if x ∈ m.arrhenius_rxns then true else m.Afixed x,
    Bfixed := fun x => if x ∈ m.arrhenius_rxns then true else m.Bfixed x,
    Efixed := fun x => if x ∈ m.arrhenius_rxns then true else m.Efixed x,
    Affixed := fun x => if x ∈ m.equ_arrhenius_rxns then true else m.Affixed x,
    Effixed := fun x => if x ∈ m.equ_arrhenius_rxns then true else m.Effixed x,
    dHfixed := fun x => if x ∈ m.equ_arrhenius_rxns then true else m.dHfixed x,
    dSfixed := fun x => if x ∈ m.equ_arrhenius_rxns then true else m.dSfixed x,
    rxn_fixed := fun x =>
      if x ∈ m.arrhenius_rxns ∨ x ∈ m.equ_arrhenius_rxns then true else m.rxn_fixed x }

/-- Embeds `unfix_reaction`: unfixes all kinetic parameters of the named reaction
(`A`, `B`, `E` for Arrhenius, `Af`, `Ef`, `dH`, `dS` for
equilibrium-Arrhenius) and clears its fixed flag. -/
def unfix_reaction (rxn : String) (m : Model) : Model :=
  let m1 :=
    if rxn ∈ m.arrhenius_rxns then
      { m with Afixed := setB m.Afixed rxn false, Bfixed := setB m.Bfixed rxn false,
               Efixed := setB m.Efixed rxn false, rxn_fixed := setB m.rxn_fixed rxn false }
    else m
  if rxn ∈ m1.equ_arrhenius_rxns then
    { m1 with Affixed := setB m1.Affixed rxn false, Effixed := setB m1.Effixed rxn false,
              dHfixed := setB m1.dHfixed rxn false, dSfixed := setB m1.dSfixed rxn false,
              rxn_fixed := setB m1.rxn_fixed rxn false }
  else m1

/-! ## Rate-constant helpers (module-level functions of the source)

These are real-valued formulas involving `exp`; the exponential is taken
as an explicit function argument so the definitions stay executable in the
rest of the development. -/

/-- The gas constant 8.3145 J/mol/K used inline by the source, written as
a quotient so the definitions below stay executable over any field. -/
def gasR (K : Type) [Field K] : K := (83145 : K) / 10000

/-- Embeds `arrhenius_rate_const(A, B, E, T) = A * T^B * exp(-E/8.3145/T)`,
with the exponential and the power passed as function arguments. -/
def arrhenius_rate_const {K : Type} [Field K] (expf : K → K) (powf : K → K → K)
    (A B E T : K) : K :=
  A * powf T B * expf (-E / gasR K / T)

/-- Embeds `equilibrium_arrhenius_consts(Af, Ef, dH, dS)`: the derived reverse
pair `(Ar, Er) = (Af * exp(-dS/8.3145), Ef - dH)`. -/
def equilibrium_arrhenius_consts {K : Type} [Field K] (expf : K → K)
    (Af Ef dH dS : K) : K × K :=
  (Af * expf (-dS / gasR K), Ef - dH)

/-! ## Discretizer fixups and the staged continuation solver -/

/-- The final block of `discretize_model`: for every gas species, age and
temperature, pin the first time-derivative sample `dCb_dt` at the first
axial location and first time to 0 and fix it; then raise `isDiscrete`.
(The numerical stencil construction itself is the external transform.) -/
def discretize_pin (m : Model) : Model :=
  { m with
    dCb_dt :=
      { val := fun i =>
          if i.spec ∈ m.gas_set ∧ i.age ∈ m.age_set ∧ i.temp ∈ m.T_set ∧
              i.z = m.z.headI ∧ i.t = m.t.headI then 0
          else m.dCb_dt.val i,
        fix := fun i =>
          if i.spec ∈ m.gas_set ∧ i.age ∈ m.age_set ∧ i.temp ∈ m.T_set ∧
              i.z = m.z.headI ∧ i.t = m.t.headI then true
          else m.dCb_dt.fix i },
    isDiscrete := true }

/-- The hold block of the continuation solver: fix `Cb`, `C`, `dCb_dt`,
`dC_dt`, `dCb_dz` and deactivate the corresponding constraints over the
slice `p`; when surface species exist also `q`, `dq_dt` and their
constraints; when sites exist also `S` and the site balance. -/
def holdFix (p : VIdx → Prop) [DecidablePred p] (m : Model) : Model :=
  { m with
    Cb := fixP m.Cb p, C := fixP m.C p, dCb_dt := fixP m.dCb_dt p,
    dC_dt := fixP m.dC_dt p, dCb_dz := fixP m.dCb_dz p,
    bulk_cons := deactP m.bulk_cons p, pore_cons := deactP m.pore_cons p,
    dCb_dz_disc_eq := deactP m.dCb_dz_disc_eq p,
    dCb_dt_disc_eq := deactP m.dCb_dt_disc_eq p,
    dC_dt_disc_eq := deactP m.dC_dt_disc_eq p,
    q := if m.isSurfSpecSet then fixP m.q p else m.q,
    dq_dt := if m.isSurfSpecSet then fixP m.dq_dt p else m.dq_dt,
    surf_cons := if m.isSurfSpecSet then deactP m.surf_cons p else m.surf_cons,
    dq_dt_disc_eq := if m.isSurfSpecSet then deactP m.dq_dt_disc_eq p else m.dq_dt_disc_eq,
    S := if m.isSurfSpecSet && m.isSitesSet then fixP m.S p else m.S,
    site_cons := if m.isSurfSpecSet && m.isSitesSet then deactP m.site_cons p else m.site_cons }

/-- The restore block of the continuation solver: unfix the same variable
families and reactivate the same constraints over the slice `p`. -/
def holdUnfix (p : VIdx → Prop) [DecidablePred p] (m : Model) : Model :=
  { m with
    Cb := unfixP m.Cb p, C := unfixP m.C p, dCb_dt := unfixP m.dCb_dt p,
    dC_dt := unfixP m.dC_dt p, dCb_dz := unfixP m.dCb_dz p,
    bulk_cons := actP m.bulk_cons p, pore_cons := actP m.pore_cons p,
    dCb_dz_disc_eq := actP m.dCb_dz_disc_eq p,
    dCb_dt_disc_eq := actP m.dCb_dt_disc_eq p,
    dC_dt_disc_eq := actP m.dC_dt_disc_eq p,
    q := if m.isSurfSpecSet then unfixP m.q p else m.q,
    dq_dt := if m.isSurfSpecSet then unfixP m.dq_dt p else m.dq_dt,
    surf_cons := if m.isSurfSpecSet then actP m.surf_cons p else m.surf_cons,
    dq_dt_disc_eq := if m.isSurfSpecSet then actP m.dq_dt_disc_eq p else m.dq_dt_disc_eq,
    S := if m.isSurfSpecSet && m.isSitesSet then unfixP m.S p else m.S,
    site_cons := if m.isSurfSpecSet && m.isSitesSet then actP m.site_cons p else m.site_cons }

/-- Re-apply the persistent fixings ("Make sure the vars that should be
fixed, are fixed"): the zero-derivative pin of `dCb_dt` at (first location,
first time), `Cb` and `C` at the first time, `q` at the first time when
surface species exist, and `Cb` at the first location. -/
def refix_persistent (m : Model) : Model :=
  { m with
    dCb_dt := fixP m.dCb_dt (fun i => i.z = m.z.headI ∧ i.t = m.t.headI),
    Cb := fixP (fixP m.Cb (fun i => i.t = m.t.headI)) (fun i => i.z = m.z.headI),
    C := fixP m.C (fun i => i.t = m.t.headI),
    q := if m.isSurfSpecSet then fixP m.q (fun i => i.t = m.t.headI) else m.q }

/-- The body executed for one time step `tsolve` past the first: fix and
deactivate every other time, run one external solve, then walk the time
grid again, restoring the just-solved (age, temperature) pair at every
other time and re-applying the persistent fixings after each step. -/
def inner_time_step (solve : Model → Model) (age_solve temp_solve : ℕ) (tsolve : ℚ)
    (m : Model) : Model :=
  let m1 := m.t.foldl
    (fun mm th => if tsolve = th then mm else holdFix (fun i => i.t = th) mm) m
  let m2 := solve m1
  m2.t.foldl
    (fun mm th =>
      refix_persistent <|
        if tsolve = th then mm
        else holdUnfix
          (fun i => i.age = age_solve ∧ i.temp = temp_solve ∧ i.t = th) mm)
    m2

/-- The inner time loop: iterate the time grid in order, skipping the very
first point (the initial condition is never solved), running
`inner_time_step` for every later point. -/
def time_loop (solve : Model → Model) (age_solve temp_solve : ℕ) (m : Model) : Model :=
  (m.t.foldl
    (fun (st : ℕ × Model) tsolve =>
      (st.1 + 1, if st.1 > 0 then inner_time_step solve age_solve temp_solve tsolve st.2
                 else st.2))
    (0, m)).2

/-- One outer iteration of the continuation solver for a fixed
`(age_solve, temp_solve)` pair: hold every other age and temperature, run
the inner time loop, restore every other age and temperature, and re-apply
the persistent fixings. -/
def outer_body (solve : Model → Model) (age_solve temp_solve : ℕ) (m : Model) : Model :=
  let m1 := m.age_set.foldl
    (fun mm ah => if age_solve = ah then mm else holdFix (fun i => i.age = ah) mm) m
  let m2 := m1.T_set.foldl
    (fun mm th => if temp_solve = th then mm else holdFix (fun i => i.temp = th) mm) m1
  let m3 := time_loop solve age_solve temp_solve m2
  let m4 := m3.age_set.foldl
    (fun mm ah => if age_solve = ah then mm else holdUnfix (fun i => i.age = ah) mm) m3
  let m5 := m4.T_set.foldl
    (fun mm th => if temp_solve = th then mm else holdUnfix (fun i => i.temp = th) mm) m4
  refix_persistent m5

/-- Embeds `initialize_simulator` of the source: every gas species must have its
boundary set; the per-reaction fixed flags are snapshotted, all kinetic
parameters are fixed, the staged (age x temperature x time) continuation
runs with the external `solve`, and finally exactly the reactions whose
snapshotted flag was `False` are unfixed again. -/
def init_simulator (solve : Model → Model) (m : Model) : Except (String × Model) Model :=
  if m.gas_set.any (fun sp => !m.isBoundarySet sp) then
    .error ("Error! Must specify boundaries before attempting to solve", m)
  else
    let fixed_dict := m.rxn_fixed
    let m1 := fix_all_reactions m
    let m2 := m1.age_set.foldl
      (fun mm age_solve =>
        mm.T_set.foldl (fun mmm temp_solve => outer_body solve age_solve temp_solve mmm) mm)
      m1
    .ok (m.rxn_list.foldl
      (fun mm r => if fixed_dict r = false then unfix_reaction r mm else mm) m2)

/-- Frame conditions of one external (ipopt) solve: the solver never
changes the index sets, the feature flags, the reaction bookkeeping, any
fixed flag, or the value of any variable instance that is fixed. -/
structure SolverOK (solve : Model → Model) : Prop where
  pres_t : ∀ m, (solve m).t = m.t
  pres_z : ∀ m, (solve m).z = m.z
  pres_age_set : ∀ m, (solve m).age_set = m.age_set
  pres_T_set : ∀ m, (solve m).T_set = m.T_set
  pres_gas_set : ∀ m, (solve m).gas_set = m.gas_set
  pres_surf_flag : ∀ m, (solve m).isSurfSpecSet = m.isSurfSpecSet
  pres_sites_flag : ∀ m, (solve m).isSitesSet = m.isSitesSet
  pres_arr : ∀ m, (solve m).arrhenius_rxns = m.arrhenius_rxns
  pres_equ : ∀ m, (solve m).equ_arrhenius_rxns = m.equ_arrhenius_rxns
  pres_rxn_list : ∀ m, (solve m).rxn_list = m.rxn_list
  pres_rxn_fixed : ∀ m, (solve m).rxn_fixed = m.rxn_fixed
  pres_Afixed : ∀ m, (solve m).Afixed = m.Afixed
  pres_Bfixed : ∀ m, (solve m).Bfixed = m.Bfixed
  pres_Efixed : ∀ m, (solve m).Efixed = m.Efixed
  pres_Affixed : ∀ m, (solve m).Affixed = m.Affixed
  pres_Effixed : ∀ m, (solve m).Effixed = m.Effixed
  pres_dHfixed : ∀ m, (solve m).dHfixed = m.dHfixed
  pres_dSfixed : ∀ m, (solve m).dSfixed = m.dSfixed
  pres_fix_Cb : ∀ m, (solve m).Cb.fix = m.Cb.fix
  pres_fix_C : ∀ m, (solve m).C.fix = m.C.fix
  pres_fix_q : ∀ m, (solve m).q.fix = m.q.fix
  pres_fix_dCb_dt : ∀ m, (solve m).dCb_dt.fix = m.dCb_dt.fix
  pres_val_Cb : ∀ m i, m.Cb.fix i = true → (solve m).Cb.val i = m.Cb.val i
  pres_val_C : ∀ m i, m.C.fix i = true → (solve m).C.val i = m.C.val i
  pres_val_q : ∀ m i, m.q.fix i = true → (solve m).q.val i = m.q.val i
  pres_val_dCb_dt : ∀ m i, m.dCb_dt.fix i = true → (solve m).dCb_dt.val i = m.dCb_dt.val i

/-- State carried out of an aborted (`exit()`) or successful call. -/
def resState : Except (String × Model) Model → Model
  | .ok m => m
  | .error e => e.2

/-- Returns `some` of the state at the moment of an `exit()`, `none` on success. -/
def abortedWith : Except (String × Model) Model → Option Model
  | .ok _ => none
  | .error e => some e.2

/-! ## Invariants of the continuation solve -/

/-- The structural data the continuation solve never changes. -/
def gridEq (m0 m : Model) : Prop :=
  m.t = m0.t ∧ m.z = m0.z ∧ m.age_set = m0.age_set ∧ m.T_set = m0.T_set ∧
  m.isSurfSpecSet = m0.isSurfSpecSet ∧ m.isSitesSet = m0.isSitesSet

/-- The persistent fixings, indexed by the reference grid of `m0`:
concentrations fixed at the first time, `Cb` fixed at the first location,
and the `dCb_dt` pin fixed at (first location, first time). -/
def persistsFixedAt (m0 m : Model) : Prop :=
  (∀ i : VIdx, i.t = m0.t.headI →
    m.Cb.fix i = true ∧ m.C.fix i = true ∧ m.q.fix i = true) ∧
  (∀ i : VIdx, i.z = m0.z.headI → m.Cb.fix i = true) ∧
  (∀ i : VIdx, i.z = m0.z.headI → i.t = m0.t.headI → m.dCb_dt.fix i = true)

/-- The persistent values: concentrations at the first time, `Cb` at the
first location and the pinned `dCb_dt` sample agree with `m0`. -/
def valsPreserved (m0 m : Model) : Prop :=
  (∀ i : VIdx, i.t = m0.t.headI →
    m.Cb.val i = m0.Cb.val i ∧ m.C.val i = m0.C.val i ∧ m.q.val i = m0.q.val i) ∧
  (∀ i : VIdx, i.z = m0.z.headI → m.Cb.val i = m0.Cb.val i) ∧
  (∀ i : VIdx, i.z = m0.z.headI → i.t = m0.t.headI → m.dCb_dt.val i = m0.dCb_dt.val i)

/-- The invariant maintained at every solve point of the staged run. -/
def ContInv (m0 m : Model) : Prop :=
  gridEq m0 m ∧ persistsFixedAt m0 m ∧ valsPreserved m0 m

/-- The weakened invariant holding between a restore block and the
following `refix_persistent`: persistent fixes may be lifted, but values
and structure are intact, and `q` stays fixed at the first time when no
surface species exist (the restore blocks never touch `q` then). -/
def ContWInv (m0 m : Model) : Prop :=
  gridEq m0 m ∧ valsPreserved m0 m ∧
  (m.isSurfSpecSet = false → ∀ i : VIdx, i.t = m0.t.headI → m.q.fix i = true)

/-- The reaction-parameter bookkeeping the slice loops never change. -/
def rxnStateEq (m0 m : Model) : Prop :=
  m.Afixed = m0.Afixed ∧ m.Bfixed = m0.Bfixed ∧ m.Efixed = m0.Efixed ∧
  m.Affixed = m0.Affixed ∧ m.Effixed = m0.Effixed ∧
  m.dHfixed = m0.dHfixed ∧ m.dSfixed = m0.dSfixed ∧
  m.rxn_fixed = m0.rxn_fixed ∧ m.arrhenius_rxns = m0.arrhenius_rxns ∧
  m.equ_arrhenius_rxns = m0.equ_arrhenius_rxns ∧ m.rxn_list = m0.rxn_list

/-! ## Concrete scenario states used by the witnesses and counterexamples -/

/-- A model with only the temporal dimension declared (no axial bounds). -/
def C1m : Model := add_temporal_dim 0 1 [] init_model

/-- The 21-point uniform time grid 0, 1, ..., 20 of the
boundary-condition scenario. -/
def C2grid : List ℚ := (List.range 21).map (fun n => mkRat n 1)

/-- A discretized single-gas-species model over the 21-point grid with
initial conditions set, ready for boundary conditions. -/
def C2model : Model :=
  { init_model with
    gas_set := ["NH3"], isGasSpecSet := true, isDiscrete := true,
    z := [0, mkRat 1 2, 1], t := C2grid,
    isInitialSet := fun _ => true }

/-- The result of the scenario call
`set_time_dependent_BC("NH3", ..., [(0, 1.0), (10, 0.5), (20, 0.0)])`
with the default 1e-20 initial value. -/
def C2res : Except (String × Model) Model :=
  set_time_dependent_BC "NH3" 0 0 [(0, 1), (10, mkRat 1 2), (20, 0)] floor20 C2model

/-- The model produced by the scenario call. -/
def C2final : Model := resState C2res

/-- The step function the specification claims for the scenario:
1.0 on [0, 10), 0.5 on [10, 20), the clamped floor from 20 on.
(Written from the claim, to be compared against the computed state.) -/
def C2step (tv : ℚ) : ℚ :=
  if tv < 10 then 1 else if tv < 20 then mkRat 1 2 else floor20

/-- A declared-reactions model with one Arrhenius reaction, two gas
species and one surface species over a two-point grid. -/
def C4m : Model :=
  { init_model with
    isRxnSet := true, isDiscrete := true,
    arrhenius_rxns := ["r1"], all_rxns := ["r1"],
    gas_set := ["NO", "N2"], surf_set := ["S1"], isSurfSpecSet := true,
    all_species_set := ["NO", "N2", "S1"],
    z := [0, 1] }

/-- Reaction configuration where species NO appears as a reactant (2) and
as a product (1), N2 as a product (1), and the surface species S1 as a
product (3). -/
def C4info : RxnInfo where
  params := fun k => if k = "A" then some 10 else if k = "E" then some 5 else none
  mol_reactants := fun sp => if sp = "NO" then some 2 else none
  mol_products := fun sp =>
    if sp = "N2" then some 1 else if sp = "NO" then some 1
    else if sp = "S1" then some 3 else none
  rxn_orders := fun sp => if sp = "NO" then some 1 else none

/-- The model after configuring `r1` on `C4m`. -/
def C4final : Model := resState (set_reaction_info "r1" C4info C4m)

/-- The model after additionally zoning `r1` to the single-point zone
`(0, 0)`. -/
def C4zfinal : Model := resState (set_reaction_zone "r1" (0, 0) false C4final)

/-- A discretized model with nonzero stoichiometry, for the zoning
idempotence witness. -/
def C5m : Model :=
  { init_model with
    isDiscrete := true, all_rxns := ["r1"],
    gas_set := ["A"], surf_set := ["S1"], isSurfSpecSet := true,
    z := [0, 1, 2],
    u_C := fun _ _ _ => 3, u_q := fun _ _ _ => 4 }

/-- The model after zoning `r1` on `C5m` to `(0, 1)` once. -/
def C5once : Model := resState (set_reaction_zone "r1" (0, 1) false C5m)

/-- A discretized model (with sites) whose concentration fields hold a
recognizable value 5, for the domain-check claims. -/
def C6m : Model :=
  { init_model with
    isDiscrete := true, isSitesSet := true,
    gas_set := ["A"], site_set := ["Z"],
    z := [0, 1], t := [0, 1],
    isInitialSet := fun _ => true,
    Cb := ⟨fun _ => 5, fun _ => false⟩,
    C := ⟨fun _ => 5, fun _ => false⟩ }

/-- A small fully discretized model with boundaries set and the persistent
fixings in place, for the continuation-solve witness. -/
def C7m : Model :=
  { init_model with
    gas_set := ["A"], isGasSpecSet := true, isDiscrete := true,
    age_set := [0], T_set := [0], z := [0, 1], t := [0, 1],
    isBoundarySet := fun _ => true,
    Cb := ⟨fun _ => 7, fun _ => true⟩,
    C := ⟨fun _ => 7, fun _ => true⟩,
    q := ⟨fun _ => 7, fun _ => true⟩,
    dCb_dt := ⟨fun _ => 0, fun _ => true⟩ }

/-- The state after the staged continuation run on `C7m` with an identity
solver. -/
def C7final : Model := resState (init_simulator id C7m)

/-- A model with one Arrhenius and one equilibrium-Arrhenius reaction where
only `r2` is fixed before initialization. -/
def C8m : Model :=
  { C7m with
    arrhenius_rxns := ["r1"], equ_arrhenius_rxns := ["r2"],
    all_rxns := ["r1", "r2"], rxn_list := ["r1", "r2"],
    rxn_fixed := fun r => r == "r2" }

/-- The state after the staged continuation run on `C8m` with an identity
solver. -/
def C8final : Model := resState (init_simulator id C8m)

/-- A declared-reactions model with one Arrhenius reaction, for the
`B`-defaulting claim. -/
def C9m : Model :=
  { init_model with
    isRxnSet := true, arrhenius_rxns := ["r1"], all_rxns := ["r1"],
    gas_set := ["A"], all_species_set := ["A"], z := [0] }

/-- A reaction configuration whose parameter dictionary has `A` and `E`
but no `B` entry. -/
def C9info : RxnInfo where
  params := fun k => if k = "A" then some 1 else if k = "E" then some 2 else none
  mol_reactants := fun sp => if sp = "A" then some 1 else none
  mol_products := fun _ => none
  rxn_orders := fun _ => none

/-- The model after configuring `r1` without a `B` value. -/
def C9final : Model := resState (set_reaction_info "r1" C9info C9m)

/-- A model with a gas species whose initial condition is not set. -/
def C10m : Model := { init_model with gas_set := ["A"] }

/-! # Theorems -/

/-! ## General helper lemmas -/

/-- A fold preserves any property its step preserves. -/
lemma foldl_preserve {α σ : Type} (P : σ → Prop) (f : σ → α → σ)
    (h : ∀ s a, P s → P (f s a)) :
    ∀ (l : List α) (s : σ), P s → P (l.foldl f s)
  | [], _, hs => hs
  | a :: l, s, hs => foldl_preserve P f h l (f s a) (h s a hs)

/-- Fixing a slice keeps every already-fixed instance fixed. -/
lemma fixP_keep (w : VarF) (p : VIdx → Prop) [DecidablePred p] {i : VIdx}
    (h : w.fix i = true) : (fixP w p).fix i = true := by
  unfold fixP
  dsimp only
  split
  · rfl
  · exact h

/-- Fixing a slice fixes every instance of the slice. -/
lemma fixP_mem (w : VarF) (p : VIdx → Prop) [DecidablePred p] {i : VIdx}
    (h : p i) : (fixP w p).fix i = true := by
  unfold fixP
  dsimp only
  rw [if_pos h]

/-- A conditionally applied `fixP` keeps already-fixed instances fixed. -/
lemma ite_fixP_keep (c : Prop) [Decidable c] (w : VarF) (p : VIdx → Prop)
    [DecidablePred p] {i : VIdx} (h : w.fix i = true) :
    (if c then fixP w p else w).fix i = true := by
  split
  · exact fixP_keep w p h
  · exact h

/-- A conditionally applied `fixP` never changes values. -/
lemma ite_fixP_val (c : Prop) [Decidable c] (w : VarF) (p : VIdx → Prop)
    [DecidablePred p] : (if c then fixP w p else w).val = w.val := by
  split <;> rfl

/-- A conditionally applied `unfixP` never changes values. -/
lemma ite_unfixP_val (c : Prop) [Decidable c] (w : VarF) (p : VIdx → Prop)
    [DecidablePred p] : (if c then unfixP w p else w).val = w.val := by
  split <;> rfl

/-! ## Claim C1 -/

/-- Claim C1 counterexample: `add_age_set` does not require the axial
dimension.  On a model whose temporal dimension is set but whose axial
bounds are not, the claim demands a `PrerequisiteError`, yet the call
succeeds. -/
theorem C1_counterexample :
    C1m.isBoundsSet = false ∧ C1m.isTimesSet = true ∧
    (add_age_set [0] C1m).isOk = true := by decide

/-- Claim C1 (amended): each setup call checks exactly the prerequisites
the code declares — ages need the temporal dimension (not the axial one),
temperatures need time and ages, gas species need time, bounds,
temperatures and ages, surface species need gas species, and sites need
surface species — and a call that fails its prerequisite check aborts with
the model state unchanged, creating no species, age, temperature or
name-list entry. -/
theorem C1_thm :
    (∀ (m : Model) (ages : List ℕ), m.isTimesSet = false →
      abortedWith (add_age_set ages m) = some m) ∧
    (∀ (m : Model) (temps : List ℕ), m.isTimesSet = false ∨ m.isAgeSet = false →
      abortedWith (add_temperature_set temps m) = some m) ∧
    (∀ (m : Model) (gs : List String),
      m.isTimesSet = false ∨ m.isBoundsSet = false ∨ m.isTempSet = false ∨
        m.isAgeSet = false →
      abortedWith (add_gas_species gs m) = some m) ∧
    (∀ (m : Model) (ss : List String), m.isGasSpecSet = false →
      abortedWith (add_surface_species ss m) = some m) ∧
    (∀ (m : Model) (st : List String), m.isSurfSpecSet = false →
      abortedWith (add_surface_sites st m) = some m) := by
  refine ⟨?_, ?_, ?_, ?_, ?_⟩
  · intro m ages h
    simp [add_age_set, h, abortedWith]
  · intro m temps h
    by_cases h1 : m.isTimesSet = false
    · simp [add_temperature_set, h1, abortedWith]
    · rcases h with h | h
      · exact absurd h h1
      · simp [add_temperature_set, h1, h, abortedWith]
  · intro m gs h
    by_cases h1 : m.isTimesSet = false ∨ m.isBoundsSet = false
    · simp only [add_gas_species, if_pos h1, abortedWith]
    · have h2 : m.isTempSet = false ∨ m.isAgeSet = false := by tauto
      simp only [add_gas_species, if_neg h1, if_pos h2, abortedWith]
  · intro m ss h
    simp [add_surface_species, h, abortedWith]
  · intro m st h
    simp [add_surface_sites, h, abortedWith]

/-- Witness for the amended claim C1, at concrete states. -/
theorem C1_witness :
    abortedWith (add_temperature_set [0] init_model) = some init_model ∧
    abortedWith (add_gas_species ["A"] C1m) = some C1m ∧
    abortedWith (add_surface_species ["S"] init_model) = some init_model ∧
    abortedWith (add_surface_sites ["Z"] init_model) = some init_model ∧
    abortedWith (add_age_set [0] init_model) = some init_model :=
  ⟨C1_thm.2.1 init_model [0] (Or.inl rfl),
   C1_thm.2.2.1 C1m ["A"] (Or.inr (Or.inl rfl)),
   C1_thm.2.2.2.1 init_model ["S"] rfl,
   C1_thm.2.2.2.2 init_model ["Z"] rfl,
   C1_thm.1 init_model [0] rfl⟩

/-! ## Claim C2 -/

/-- Claim C2: on the 21-point uniform grid 0..20, the boundary pairs
`[(0, 1.0), (10, 0.5), (20, 0.0)]` with default floor 1e-20 produce
exactly the claimed step function in both `Cb_in` and `Cb` at the first
axial location: 1.0 on `[0, 10)`, 0.5 on `[10, 20)`, and the clamped
floor 1e-20 — never literal 0 — from 20 on. -/
theorem C2_thm :
    C2res.isOk = true ∧ floor20 ≠ 0 ∧
    ∀ n : Fin 21,
      C2final.Cb_in "NH3" 0 0 (mkRat n.1 1) = C2step (mkRat n.1 1) ∧
      C2final.Cb.val ⟨"NH3", 0, 0, 0, mkRat n.1 1⟩ = C2step (mkRat n.1 1) := by
  decide

/-! ## Claim C3 -/

/-- Claim C3: for all real `Af`, `Ef`, `dH`, `dS` (negative `dH`
included), `equilibrium_arrhenius_consts` returns exactly
`(Af * exp(-dS / R), Ef - dH)` with `R = 8.3145`. -/
theorem C3_thm (Af Ef dH dS : ℝ) :
    equilibrium_arrhenius_consts Real.exp Af Ef dH dS =
      (Af * Real.exp (-dS / (8.3145 : ℝ)), Ef - dH) := by
  unfold equilibrium_arrhenius_consts gasR
  norm_num

/-! ## Claim C10 -/

/-- Claim C10: while a gas species' initial condition is unset, both
`set_const_BC` and `set_time_dependent_BC` abort with the model state at
the exit exactly the input state — no boundary value stored, nothing
fixed, the boundary flag untouched. -/
theorem C10_thm (spec : String) (age temp : ℕ) (value : ℚ)
    (pairs : List (ℚ × ℚ)) (iv : ℚ) (m : Model)
    (h : m.isInitialSet spec = false) :
    abortedWith (set_const_BC spec age temp value m) = some m ∧
    abortedWith (set_time_dependent_BC spec age temp pairs iv m) = some m := by
  constructor
  · by_cases hg : spec ∈ m.gas_set
    · simp [set_const_BC, hg, h, abortedWith]
    · simp [set_const_BC, hg, abortedWith]
  · by_cases hg : spec ∈ m.gas_set
    · simp [set_time_dependent_BC, hg, h, abortedWith]
    · simp [set_time_dependent_BC, hg, abortedWith]

/-- Witness for claim C10 at a concrete state. -/
theorem C10_witness :
    C10m.isInitialSet "A" = false ∧
    (abortedWith (set_const_BC "A" 0 0 1 C10m) = some C10m ∧
     abortedWith (set_time_dependent_BC "A" 0 0 [(0, 1)] 1 C10m) = some C10m) :=
  ⟨rfl, C10_thm "A" 0 0 1 [(0, 1)] 1 C10m rfl⟩

/-! ## Claim C6 -/

/-- Claim C6 counterexample: the input 0 to `set_const_IC` is below the
1e-20 floor, yet the call succeeds (no `DomainError`) and mutates the
stored state, clamping the stored concentration to the floor. -/
theorem C6_counterexample :
    (0 : ℚ) < floor20 ∧
    (set_const_IC "A" 0 0 0 C6m).isOk = true ∧
    (resState (set_const_IC "A" 0 0 0 C6m)).Cb.val ⟨"A", 0, 0, 0, 0⟩ = floor20 ∧
    (resState (set_const_IC "A" 0 0 0 C6m)).Cb.val ⟨"A", 0, 0, 0, 0⟩ ≠
      C6m.Cb.val ⟨"A", 0, 0, 0, 0⟩ := by decide

/-- Lemma: mapping a function over an `Except` preserves success. -/
lemma exceptMap_isOk {a b c : Type} (f : b → c) (e : Except a b) :
    (Except.map f e).isOk = e.isOk := by
  cases e <;> rfl

/-- Lemma: the time scan of `set_time_dependent_BC` never raises when every
pair value is non-negative (the only abort inside the loop is the negative
pair-value check). -/
lemma td_bc_loop_ok (spec : String) (age temp : ℕ) (pairs : List (ℚ × ℚ))
    (hp : ∀ p ∈ pairs, 0 ≤ p.2) :
    ∀ (ts : List ℚ) (i : ℕ) (cbt cbv : ℚ) (mm : Model),
      (td_bc_loop spec age temp pairs ts i cbt cbv mm).isOk = true := by
  intro ts
  induction ts with
  | nil => intro i cbt cbv mm; rfl
  | cons tt rest ih =>
    intro i cbt cbv mm
    simp only [td_bc_loop]
    by_cases hge : tt ≥ cbt
    · rw [if_pos hge]
      cases hpr : pairs.get? i with
      | some pr =>
        have hnn : ¬ pr.2 < 0 := not_lt.mpr (hp pr (List.get?_mem hpr))
        dsimp only
        rw [if_neg hnn]
        exact ih (i + 1) _ _ _
      | none =>
        exact ih (i + 1) _ cbv _
    · rw [if_neg hge]
      exact ih i cbt cbv _

/-- Claim C6 (amended): a negative value passed to any of the six setters
aborts with the stored state unchanged; an input below the 1e-20 floor
but non-negative is not an error: `set_const_IC`, `set_site_density` and
`set_const_BC` clamp it to the floor and store `1e-20`,
`set_time_dependent_BC` accepts the sub-floor initial value without
raising (the stored boundary values then come from the pair scan), and
the porosity setters accept any value in `[0, 1]` unchanged, sub-floor
values included. -/
theorem C6_thm (m : Model) (v : ℚ) (site spec : String) (age temp : ℕ)
    (pairs : List (ℚ × ℚ)) :
    (v < 0 → abortedWith (set_bulk_porosity v m) = some m) ∧
    (v < 0 → abortedWith (set_washcoat_porosity v m) = some m) ∧
    (v < 0 → abortedWith (set_site_density site age v m) = some m) ∧
    (v < 0 → abortedWith (set_const_IC spec age temp v m) = some m) ∧
    (v < 0 → abortedWith (set_const_BC spec age temp v m) = some m) ∧
    (v < 0 → abortedWith (set_time_dependent_BC spec age temp pairs v m) = some m) ∧
    (0 ≤ v → v < floor20 → m.isDiscrete = true → spec ∈ m.gas_set →
      (set_const_IC spec age temp v m).isOk = true ∧
      ∀ i : VIdx, i.spec = spec → i.age = age → i.temp = temp → i.t = m.t.headI →
        (resState (set_const_IC spec age temp v m)).Cb.val i = floor20) ∧
    (0 ≤ v → v ≤ 1 → set_bulk_porosity v m = .ok { m with eb := v }) ∧
    (0 ≤ v → v ≤ 1 → set_washcoat_porosity v m = .ok { m with ew := v }) ∧
    (0 ≤ v → v < floor20 → m.isSitesSet = true →
      (set_site_density site age v m).isOk = true ∧
      ∀ lc ∈ m.z, ∀ tv ∈ m.t,
        (resState (set_site_density site age v m)).Smax site age lc tv = floor20) ∧
    (0 ≤ v → v < floor20 → spec ∈ m.gas_set → m.isInitialSet spec = true →
      (set_const_BC spec age temp v m).isOk = true ∧
      (∀ tv : ℚ, (resState (set_const_BC spec age temp v m)).Cb_in spec age temp tv = floor20) ∧
      (∀ i : VIdx, i.spec = spec → i.age = age → i.temp = temp → i.z = m.z.headI →
        (resState (set_const_BC spec age temp v m)).Cb.val i = floor20)) ∧
    (0 ≤ v → spec ∈ m.gas_set → m.isInitialSet spec = true →
      pairs ≠ [] → (∀ p ∈ pairs, 0 ≤ p.2) →
      (set_time_dependent_BC spec age temp pairs v m).isOk = true) := by
  refine ⟨?_, ?_, ?_, ?_, ?_, ?_, ?_, ?_, ?_, ?_, ?_, ?_⟩
  · intro h
    simp only [set_bulk_porosity, if_pos (Or.inr h), abortedWith]
  · intro h
    simp only [set_washcoat_porosity, if_pos (Or.inr h), abortedWith]
  · intro h
    by_cases hs : m.isSitesSet = false
    · simp [set_site_density, hs, abortedWith]
    · simp [set_site_density, hs, h, abortedWith]
  · intro h
    by_cases hd : m.isDiscrete = false
    · simp [set_const_IC, hd, abortedWith]
    · simp [set_const_IC, hd, h, abortedWith]
  · intro h
    by_cases hg : spec ∈ m.gas_set
    · by_cases hi : m.isInitialSet spec = false
      · simp [set_const_BC, hg, hi, abortedWith]
      · simp [set_const_BC, hg, hi, h, abortedWith]
    · simp [set_const_BC, hg, abortedWith]
  · intro h
    by_cases hg : spec ∈ m.gas_set
    · by_cases hi : m.isInitialSet spec = false
      · simp [set_time_dependent_BC, hg, hi, abortedWith]
      · cases pairs with
        | nil => simp [set_time_dependent_BC, hg, hi, abortedWith]
        | cons p0 rest => simp [set_time_dependent_BC, hg, hi, h, abortedWith]
    · simp [set_time_dependent_BC, hg, abortedWith]
  · intro h0 hf hd hg
    have hnn : ¬ v < 0 := not_lt.mpr h0
    have hdd : ¬ m.isDiscrete = false := by simp [hd]
    constructor
    · simp [set_const_IC, hdd, hnn, Except.isOk, Except.toBool]
    · intro i h1 h2 h3 h4
      simp only [set_const_IC, if_neg hdd, if_neg hnn, if_pos hf, resState]
      by_cases hsurf : m.isSurfSpecSet
      · by_cases hq : spec ∈ m.surf_set
        · by_cases hsite : m.isSitesSet
          · by_cases hz : spec ∈ m.site_set <;>
              simp [hg, hsurf, hq, hsite, hz, setFixVar, h1, h2, h3, h4]
          · simp [hg, hsurf, hq, hsite, setFixVar, h1, h2, h3, h4]
        · by_cases hsite : m.isSitesSet
          · by_cases hz : spec ∈ m.site_set <;>
              simp [hg, hsurf, hq, hsite, hz, setFixVar, h1, h2, h3, h4]
          · simp [hg, hsurf, hq, hsite, setFixVar, h1, h2, h3, h4]
      · simp [hg, hsurf, setFixVar, h1, h2, h3, h4]
  · intro h0 h1
    have : ¬ (v > 1 ∨ v < 0) := by
      push_neg
      exact ⟨h1, h0⟩
    simp [set_bulk_porosity, this]
  · intro h0 h1
    have : ¬ (v > 1 ∨ v < 0) := by
      push_neg
      exact ⟨h1, h0⟩
    simp [set_washcoat_porosity, this]
  · intro h0 hf hs
    have hnn : ¬ v < 0 := not_lt.mpr h0
    have hss : ¬ m.isSitesSet = false := by simp [hs]
    constructor
    · simp [set_site_density, hss, hnn, Except.isOk, Except.toBool]
    · intro lc hlc tv htv
      simp only [set_site_density, if_neg hss, if_neg hnn, resState]
      rw [if_pos ⟨trivial, trivial, hlc, htv⟩, if_pos hf]
  · intro h0 hf hg hi
    have hnn : ¬ v < 0 := not_lt.mpr h0
    have hgg : ¬ spec ∉ m.gas_set := by simp [hg]
    have hii : ¬ m.isInitialSet spec = false := by simp [hi]
    refine ⟨?_, ?_, ?_⟩
    · simp [set_const_BC, hgg, hii, hnn, Except.isOk, Except.toBool]
    · intro tv
      simp only [set_const_BC, if_neg hgg, if_neg hii, if_neg hnn, resState]
      rw [if_pos ⟨trivial, trivial, trivial⟩, if_pos hf]
    · intro i h1 h2 h3 h4
      simp only [set_const_BC, if_neg hgg, if_neg hii, if_neg hnn, resState, setFixVar]
      dsimp only
      rw [if_pos ⟨h1, h2, h3, h4⟩, if_pos hf]
  · intro h0 hg hi hne hp
    have hnn : ¬ v < 0 := not_lt.mpr h0
    have hgg : ¬ spec ∉ m.gas_set := by simp [hg]
    have hii : ¬ m.isInitialSet spec = false := by simp [hi]
    obtain ⟨p0, rest, rfl⟩ := List.exists_cons_of_ne_nil hne
    simp only [set_time_dependent_BC, if_neg hgg, if_neg hii, if_neg hnn]
    rw [exceptMap_isOk]
    exact td_bc_loop_ok spec age temp (p0 :: rest) hp _ 0 p0.1 p0.2 _

/-- Witness for the amended claim C6 at concrete inputs: negative inputs
abort each setter unchanged, a sub-floor concentration, site density and
boundary value are accepted with the floor stored, a sub-floor
time-dependent boundary call succeeds, and a sub-floor porosity is stored
as-is by both porosity setters. -/
theorem C6_witness :
    abortedWith (set_bulk_porosity (-1) C6m) = some C6m ∧
    abortedWith (set_washcoat_porosity (-1) C6m) = some C6m ∧
    abortedWith (set_site_density "Z" 0 (-1) C6m) = some C6m ∧
    abortedWith (set_const_IC "A" 0 0 (-1) C6m) = some C6m ∧
    abortedWith (set_const_BC "A" 0 0 (-1) C6m) = some C6m ∧
    abortedWith (set_time_dependent_BC "A" 0 0 [(0, 1)] (-1) C6m) = some C6m ∧
    (set_const_IC "A" 0 0 (mkRat 1 (10 ^ 21)) C6m).isOk = true ∧
    set_bulk_porosity (mkRat 1 (10 ^ 21)) C6m =
      .ok { C6m with eb := mkRat 1 (10 ^ 21) } ∧
    set_washcoat_porosity (mkRat 1 (10 ^ 21)) C6m =
      .ok { C6m with ew := mkRat 1 (10 ^ 21) } ∧
    (set_site_density "Z" 0 (mkRat 1 (10 ^ 21)) C6m).isOk = true ∧
    (resState (set_site_density "Z" 0 (mkRat 1 (10 ^ 21)) C6m)).Smax "Z" 0 0 0 = floor20 ∧
    (set_const_BC "A" 0 0 (mkRat 1 (10 ^ 21)) C6m).isOk = true ∧
    (resState (set_const_BC "A" 0 0 (mkRat 1 (10 ^ 21)) C6m)).Cb_in "A" 0 0 1 = floor20 ∧
    (resState (set_const_BC "A" 0 0 (mkRat 1 (10 ^ 21)) C6m)).Cb.val ⟨"A", 0, 0, 0, 0⟩ =
      floor20 ∧
    (set_time_dependent_BC "A" 0 0 [(0, 1)] (mkRat 1 (10 ^ 21)) C6m).isOk = true := by
  have hneg := C6_thm C6m (-1) "Z" "A" 0 0 [(0, 1)]
  have hsub := C6_thm C6m (mkRat 1 (10 ^ 21)) "Z" "A" 0 0 [(0, 1)]
  refine ⟨hneg.1 (by norm_num), hneg.2.1 (by norm_num), hneg.2.2.1 (by norm_num),
    hneg.2.2.2.1 (by norm_num), hneg.2.2.2.2.1 (by norm_num),
    hneg.2.2.2.2.2.1 (by norm_num),
    (hsub.2.2.2.2.2.2.1 (by decide) (by decide) (by decide) (by decide)).1,
    hsub.2.2.2.2.2.2.2.1 (by decide) (by decide),
    hsub.2.2.2.2.2.2.2.2.1 (by decide) (by decide),
    (hsub.2.2.2.2.2.2.2.2.2.1 (by decide) (by decide) (by decide)).1,
    (hsub.2.2.2.2.2.2.2.2.2.1 (by decide) (by decide) (by decide)).2 0 (by decide) 0 (by decide),
    (hsub.2.2.2.2.2.2.2.2.2.2.1 (by decide) (by decide) (by decide) (by decide)).1,
    (hsub.2.2.2.2.2.2.2.2.2.2.1 (by decide) (by decide) (by decide) (by decide)).2.1 1,
    (hsub.2.2.2.2.2.2.2.2.2.2.1 (by decide) (by decide) (by decide) (by decide)).2.2
      ⟨"A", 0, 0, 0, 0⟩ rfl rfl rfl (by decide),
    hsub.2.2.2.2.2.2.2.2.2.2.2 (by decide) (by decide) (by decide) (by decide) (by decide)⟩

/-! ## Claims C4, C5, C9: reaction configuration and zoning -/

/-- Lemma: `sri_stoich` never touches the `B` variable, its fixed flag, or the
reaction-kind sets. -/
lemma sri_stoich_frameB (rxn : String) (info : RxnInfo) (mm : Model) :
    (sri_stoich rxn info mm).B = mm.B ∧ (sri_stoich rxn info mm).Bfixed = mm.Bfixed ∧
    (sri_stoich rxn info mm).arrhenius_rxns = mm.arrhenius_rxns ∧
    (sri_stoich rxn info mm).equ_arrhenius_rxns = mm.equ_arrhenius_rxns := by
  cases hs : mm.isSurfSpecSet <;> simp [sri_stoich, hs]

/-- Lemma: `sri_params` only writes kinetic-parameter values: the stoichiometry
tables, index sets and flags are untouched. -/
lemma sri_params_frame (rxn : String) (info : RxnInfo) (m m1 : Model)
    (h : sri_params rxn info m = .ok m1) :
    m1.u_C = m.u_C ∧ m1.u_q = m.u_q ∧ m1.gas_set = m.gas_set ∧ m1.surf_set = m.surf_set ∧
    m1.z = m.z ∧ m1.isSurfSpecSet = m.isSurfSpecSet ∧ m1.all_species_set = m.all_species_set ∧
    m1.isDiscrete = m.isDiscrete ∧ m1.all_rxns = m.all_rxns := by
  unfold sri_params at h
  by_cases h1 : rxn ∈ m.arrhenius_rxns
  · rw [if_pos h1] at h
    cases hA : info.params "A" with
    | none => rw [hA] at h; cases h
    | some a =>
      rw [hA] at h
      cases hE : info.params "E" with
      | none => rw [hE] at h; cases h
      | some e =>
        rw [hE] at h
        cases hBq : info.params "B" with
        | some b =>
          rw [hBq] at h; cases h; exact ⟨rfl, rfl, rfl, rfl, rfl, rfl, rfl, rfl, rfl⟩
        | none =>
          rw [hBq] at h; cases h; exact ⟨rfl, rfl, rfl, rfl, rfl, rfl, rfl, rfl, rfl⟩
  · rw [if_neg h1] at h
    by_cases h2 : rxn ∈ m.equ_arrhenius_rxns
    · rw [if_pos h2] at h
      cases hA : info.params "A" with
      | none => rw [hA] at h; cases h
      | some a =>
        rw [hA] at h
        cases hE : info.params "E" with
        | none => rw [hE] at h; cases h
        | some e =>
          rw [hE] at h
          cases hH : info.params "dH" with
          | none => rw [hH] at h; cases h
          | some dh =>
            rw [hH] at h
            cases hS : info.params "dS" with
            | none => rw [hS] at h; cases h
            | some ds =>
              rw [hS] at h; cases h; exact ⟨rfl, rfl, rfl, rfl, rfl, rfl, rfl, rfl, rfl⟩
    · rw [if_neg h2] at h; cases h

/-- The gas stoichiometry stored by `sri_stoich`, pointwise. -/
lemma sri_stoich_u_C (rxn : String) (info : RxnInfo) (mm : Model)
    (sp r : String) (lc : ℚ) :
    (sri_stoich rxn info mm).u_C sp r lc =
      if sp ∈ mm.gas_set ∧ r = rxn ∧ lc ∈ mm.z then netStoich info sp
      else mm.u_C sp r lc := by
  cases hs : mm.isSurfSpecSet <;> simp [sri_stoich, hs]

/-- The surface stoichiometry stored by `sri_stoich`, pointwise. -/
lemma sri_stoich_u_q (rxn : String) (info : RxnInfo) (mm : Model)
    (hs : mm.isSurfSpecSet = true) (sp r : String) (lc : ℚ) :
    (sri_stoich rxn info mm).u_q sp r lc =
      if sp ∈ mm.surf_set ∧ r = rxn ∧ lc ∈ mm.z then netStoich info sp
      else mm.u_q sp r lc := by
  simp [sri_stoich, hs]

/-- Lemma: `sri_stoich` preserves the index sets and flags. -/
lemma sri_stoich_frame2 (rxn : String) (info : RxnInfo) (mm : Model) :
    (sri_stoich rxn info mm).gas_set = mm.gas_set ∧
    (sri_stoich rxn info mm).surf_set = mm.surf_set ∧
    (sri_stoich rxn info mm).z = mm.z ∧
    (sri_stoich rxn info mm).isSurfSpecSet = mm.isSurfSpecSet ∧
    (sri_stoich rxn info mm).isDiscrete = mm.isDiscrete ∧
    (sri_stoich rxn info mm).all_rxns = mm.all_rxns := by
  cases hs : mm.isSurfSpecSet <;> simp [sri_stoich, hs]

/-- Claim C4: after a successful `set_reaction_info`, the stored net
coefficient (`u_C` for gas species and, when surface species exist, `u_q`
for them) equals product stoichiometry minus reactant stoichiometry
(absent entries count 0, a species in both roles is summed) at every
axial grid location; and it stays that value under a subsequent
`set_reaction_zone`, which sets exactly the zoned-out locations to 0. -/
theorem C4_thm (m : Model) (rxn : String) (info : RxnInfo) (m' : Model)
    (hok : set_reaction_info rxn info m = .ok m') :
    (∀ spec ∈ m.gas_set, ∀ lc ∈ m.z,
        m'.u_C spec rxn lc =
          (info.mol_products spec).getD 0 - (info.mol_reactants spec).getD 0) ∧
    (m.isSurfSpecSet = true → ∀ spec ∈ m.surf_set, ∀ lc ∈ m.z,
        m'.u_q spec rxn lc =
          (info.mol_products spec).getD 0 - (info.mol_reactants spec).getD 0) ∧
    (∀ (zone : ℚ × ℚ) (inv : Bool) (m'' : Model),
        set_reaction_zone rxn zone inv m' = .ok m'' →
        (∀ spec ∈ m.gas_set, ∀ lc ∈ m.z,
          (¬ zoneZeroes zone inv lc → m''.u_C spec rxn lc =
              (info.mol_products spec).getD 0 - (info.mol_reactants spec).getD 0) ∧
          (zoneZeroes zone inv lc → m''.u_C spec rxn lc = 0)) ∧
        (m.isSurfSpecSet = true → ∀ spec ∈ m.surf_set, ∀ lc ∈ m.z,
          (¬ zoneZeroes zone inv lc → m''.u_q spec rxn lc =
              (info.mol_products spec).getD 0 - (info.mol_reactants spec).getD 0) ∧
          (zoneZeroes zone inv lc → m''.u_q spec rxn lc = 0))) := by
  unfold set_reaction_info at hok
  by_cases hr : m.isRxnSet = false
  · rw [if_pos hr] at hok; cases hok
  · rw [if_neg hr] at hok
    cases hp : sri_params rxn info m with
    | error e => rw [hp] at hok; simp [Except.map] at hok
    | ok m1 =>
      rw [hp] at hok
      simp only [Except.map, Except.ok.injEq] at hok
      obtain ⟨fuC, fuq, fgas, fsurf, fz, fflag, fall, fdisc, frxns⟩ :=
        sri_params_frame rxn info m m1 hp
      have huC : ∀ spec ∈ m.gas_set, ∀ lc ∈ m.z,
          m'.u_C spec rxn lc =
            (info.mol_products spec).getD 0 - (info.mol_reactants spec).getD 0 := by
        intro spec hsp lc hlc
        rw [← hok, sri_stoich_u_C, if_pos ⟨fgas ▸ hsp, rfl, fz ▸ hlc⟩]
        rfl
      have huq : m.isSurfSpecSet = true → ∀ spec ∈ m.surf_set, ∀ lc ∈ m.z,
          m'.u_q spec rxn lc =
            (info.mol_products spec).getD 0 - (info.mol_reactants spec).getD 0 := by
        intro hsurf spec hsp lc hlc
        rw [← hok, sri_stoich_u_q rxn info m1 (fflag.trans hsurf),
          if_pos ⟨fsurf ▸ hsp, rfl, fz ▸ hlc⟩]
        rfl
      refine ⟨huC, huq, ?_⟩
      intro zone inv m'' hok2
      unfold set_reaction_zone at hok2
      by_cases hdd : m'.isDiscrete = false
      · rw [if_pos hdd] at hok2; cases hok2
      · rw [if_neg hdd] at hok2
        by_cases hrr : rxn ∉ m'.all_rxns
        · rw [if_pos hrr] at hok2; cases hok2
        · rw [if_neg hrr] at hok2
          have hflagEq : m'.isSurfSpecSet = m.isSurfSpecSet := by
            rw [← hok, (sri_stoich_frame2 rxn info m1).2.2.2.1, fflag]
          cases hflag : m'.isSurfSpecSet with
          | false =>
            simp only [hflag, Bool.false_eq_true, if_false] at hok2
            cases hok2
            constructor
            · intro spec hsp lc hlc
              have hgas' : spec ∈ m'.gas_set := by
                rw [← hok, (sri_stoich_frame2 rxn info m1).1, fgas]; exact hsp
              have hz' : lc ∈ m'.z := by
                rw [← hok, (sri_stoich_frame2 rxn info m1).2.2.1, fz]; exact hlc
              constructor
              · intro hnz
                dsimp only
                rw [if_neg (fun hcc => hnz hcc.2.2.2)]
                exact huC spec hsp lc hlc
              · intro hz2
                dsimp only
                rw [if_pos ⟨hgas', rfl, hz', hz2⟩]
            · intro hsurf
              rw [hflagEq, hsurf] at hflag
              cases hflag
          | true =>
            simp only [hflag, if_true] at hok2
            cases hok2
            have hms : m.isSurfSpecSet = true := by rw [← hflagEq]; exact hflag
            constructor
            · intro spec hsp lc hlc
              have hgas' : spec ∈ m'.gas_set := by
                rw [← hok, (sri_stoich_frame2 rxn info m1).1, fgas]; exact hsp
              have hz' : lc ∈ m'.z := by
                rw [← hok, (sri_stoich_frame2 rxn info m1).2.2.1, fz]; exact hlc
              constructor
              · intro hnz
                dsimp only
                rw [if_neg (fun hcc => hnz hcc.2.2.2)]
                exact huC spec hsp lc hlc
              · intro hz2
                dsimp only
                rw [if_pos ⟨hgas', rfl, hz', hz2⟩]
            · intro hsurf spec hsp lc hlc
              have hsurf' : spec ∈ m'.surf_set := by
                rw [← hok, (sri_stoich_frame2 rxn info m1).2.1, fsurf]; exact hsp
              have hz' : lc ∈ m'.z := by
                rw [← hok, (sri_stoich_frame2 rxn info m1).2.2.1, fz]; exact hlc
              constructor
              · intro hnz
                dsimp only
                rw [if_neg (fun hcc => hnz hcc.2.2.2)]
                exact huq hms spec hsp lc hlc
              · intro hz2
                dsimp only
                rw [if_pos ⟨hsurf', rfl, hz', hz2⟩]

/-- Witness for claim C4 on `C4m`: gas species NO has reactant coefficient
2 and product coefficient 1, so its stored net coefficient is `-1` at both
locations, and surface species S1 (product coefficient 3) stores `3`;
zoning to `(0, 0)` keeps both at location 0 and zeroes both at
location 1. -/
theorem C4_witness :
    ("NO" ∈ C4m.gas_set) ∧ ("S1" ∈ C4m.surf_set) ∧
    (C4final.u_C "NO" "r1" 0 =
        (C4info.mol_products "NO").getD 0 - (C4info.mol_reactants "NO").getD 0 ∧
     C4final.u_C "NO" "r1" 1 =
        (C4info.mol_products "NO").getD 0 - (C4info.mol_reactants "NO").getD 0 ∧
     C4final.u_q "S1" "r1" 0 =
        (C4info.mol_products "S1").getD 0 - (C4info.mol_reactants "S1").getD 0 ∧
     C4zfinal.u_C "NO" "r1" 0 =
        (C4info.mol_products "NO").getD 0 - (C4info.mol_reactants "NO").getD 0 ∧
     C4zfinal.u_C "NO" "r1" 1 = 0 ∧
     C4zfinal.u_q "S1" "r1" 0 =
        (C4info.mol_products "S1").getD 0 - (C4info.mol_reactants "S1").getD 0 ∧
     C4zfinal.u_q "S1" "r1" 1 = 0) := by
  have h := C4_thm C4m "r1" C4info C4final rfl
  refine ⟨by decide, by decide, ?_, ?_, ?_, ?_, ?_, ?_, ?_⟩
  · exact h.1 "NO" (by decide) 0 (by decide)
  · exact h.1 "NO" (by decide) 1 (by decide)
  · exact h.2.1 (by decide) "S1" (by decide) 0 (by decide)
  · exact ((h.2.2 (0, 0) false C4zfinal rfl).1 "NO" (by decide) 0 (by decide)).1 (by decide)
  · exact ((h.2.2 (0, 0) false C4zfinal rfl).1 "NO" (by decide) 1 (by decide)).2 (by decide)
  · exact ((h.2.2 (0, 0) false C4zfinal rfl).2 (by decide) "S1" (by decide) 0 (by decide)).1
      (by decide)
  · exact ((h.2.2 (0, 0) false C4zfinal rfl).2 (by decide) "S1" (by decide) 1 (by decide)).2
      (by decide)

/-- Claim C5: `set_reaction_zone` is idempotent — running the same zoning
call again on its own output succeeds and leaves the stoichiometric
coefficient state (`u_C` and `u_q` at every species, reaction and axial
location) identical to the state after calling it once. -/
theorem C5_thm (m : Model) (rxn : String) (zone : ℚ × ℚ) (inv : Bool) (m' : Model)
    (h : set_reaction_zone rxn zone inv m = .ok m') :
    (set_reaction_zone rxn zone inv m').isOk = true ∧
    (resState (set_reaction_zone rxn zone inv m')).u_C = m'.u_C ∧
    (resState (set_reaction_zone rxn zone inv m')).u_q = m'.u_q := by
  unfold set_reaction_zone at h ⊢
  by_cases hd : m.isDiscrete = false
  · rw [if_pos hd] at h; cases h
  · rw [if_neg hd] at h
    by_cases hr : rxn ∉ m.all_rxns
    · rw [if_pos hr] at h; cases h
    · rw [if_neg hr] at h
      cases hflag : m.isSurfSpecSet with
      | false =>
        simp only [hflag, Bool.false_eq_true, if_false] at h
        cases h
        dsimp only
        rw [if_neg hd, if_neg hr]
        simp only [hflag, Bool.false_eq_true, if_false]
        refine ⟨rfl, ?_, rfl⟩
        dsimp only [resState]
        funext sp r lc
        by_cases hc : sp ∈ m.gas_set ∧ r = rxn ∧ lc ∈ m.z ∧ zoneZeroes zone inv lc
        · simp [hc]
        · simp [hc]
      | true =>
        simp only [hflag, if_true] at h
        cases h
        dsimp only
        rw [if_neg hd, if_neg hr]
        simp only [hflag, if_true]
        refine ⟨rfl, ?_, ?_⟩
        · dsimp only [resState]
          funext sp r lc
          by_cases hc : sp ∈ m.gas_set ∧ r = rxn ∧ lc ∈ m.z ∧ zoneZeroes zone inv lc
          · simp [hc]
          · simp [hc]
        · dsimp only [resState]
          funext sp r lc
          by_cases hc : sp ∈ m.surf_set ∧ r = rxn ∧ lc ∈ m.z ∧ zoneZeroes zone inv lc
          · simp [hc]
          · simp [hc]

/-- Witness for claim C5: zoning `C5m` once and then again with the same
arguments keeps the stoichiometry state of the once-zoned model. -/
theorem C5_witness :
    set_reaction_zone "r1" (0, 1) false C5m = .ok C5once ∧
    ((set_reaction_zone "r1" (0, 1) false C5once).isOk = true ∧
     (resState (set_reaction_zone "r1" (0, 1) false C5once)).u_C = C5once.u_C ∧
     (resState (set_reaction_zone "r1" (0, 1) false C5once)).u_q = C5once.u_q) :=
  ⟨rfl, C5_thm C5m "r1" (0, 1) false C5once rfl⟩

/-- Claim C9 counterexample: after configuring an Arrhenius reaction with
no `B` entry, `B` is 0 and fixed, but `unfix_reaction` unfixes it — the
fixing is not permanent. -/
theorem C9_counterexample :
    C9final.B "r1" = 0 ∧ C9final.Bfixed "r1" = true ∧
    (unfix_reaction "r1" C9final).Bfixed "r1" = false := by decide

/-- Claim C9 (amended): when an Arrhenius reaction is configured with a
parameter dictionary lacking `B`, the model stores `B = 0` and fixes it;
the fixing is not permanent, however: `unfix_reaction` (invoked directly,
or by `initialize_simulator`'s final restoration for a reaction whose
fixed flag was `False` before the call) unfixes `B` along with `A` and
`E`. -/
theorem C9_thm (m : Model) (rxn : String) (info : RxnInfo) (m' : Model)
    (ha : rxn ∈ m.arrhenius_rxns) (hB : info.params "B" = none)
    (hok : set_reaction_info rxn info m = .ok m') :
    m'.B rxn = 0 ∧ m'.Bfixed rxn = true ∧
    (unfix_reaction rxn m').Bfixed rxn = false := by
  unfold set_reaction_info at hok
  by_cases hr : m.isRxnSet = false
  · rw [if_pos hr] at hok; cases hok
  · rw [if_neg hr] at hok
    cases hp : sri_params rxn info m with
    | error e => rw [hp] at hok; simp [Except.map] at hok
    | ok m1 =>
      rw [hp] at hok
      simp only [Except.map, Except.ok.injEq] at hok
      unfold sri_params at hp
      rw [if_pos ha] at hp
      cases hA : info.params "A" with
      | none => rw [hA] at hp; cases hp
      | some a =>
        rw [hA] at hp
        cases hE : info.params "E" with
        | none => rw [hE] at hp; cases hp
        | some e =>
          rw [hE, hB] at hp
          cases hp
          have hBv : m'.B rxn = 0 := by
            rw [← hok, (sri_stoich_frameB rxn info _).1]
            simp [setQ]
          have hBf : m'.Bfixed rxn = true := by
            rw [← hok, (sri_stoich_frameB rxn info _).2.1]
            simp [setB]
          have harr : m'.arrhenius_rxns = m.arrhenius_rxns := by
            rw [← hok, (sri_stoich_frameB rxn info _).2.2.1]
          have harr' : rxn ∈ m'.arrhenius_rxns := by rw [harr]; exact ha
          refine ⟨hBv, hBf, ?_⟩
          have hstep : (unfix_reaction rxn m').Bfixed = setB m'.Bfixed rxn false := by
            unfold unfix_reaction
            rw [if_pos harr']
            by_cases he : rxn ∈ m'.equ_arrhenius_rxns
            · rw [if_pos he]
            · rw [if_neg he]
          rw [hstep]
          simp [setB]

/-- Witness for the amended claim C9 on `C9m`. -/
theorem C9_witness :
    ("r1" ∈ C9m.arrhenius_rxns) ∧ C9info.params "B" = none ∧
    (C9final.B "r1" = 0 ∧ C9final.Bfixed "r1" = true ∧
     (unfix_reaction "r1" C9final).Bfixed "r1" = false) :=
  ⟨by decide, rfl, C9_thm C9m "r1" C9info C9final (by decide) rfl rfl⟩

/-! ## Claims C7, C8: the staged continuation solve -/

lemma contInv_holdFix (m0 m : Model) (p : VIdx → Prop) [DecidablePred p]
    (h : ContInv m0 m) : ContInv m0 (holdFix p m) := by
  obtain ⟨hg, ⟨hf1, hf2, hf3⟩, ⟨hv1, hv2, hv3⟩⟩ := h
  refine ⟨hg, ⟨?_, ?_, ?_⟩, ⟨?_, ?_, ?_⟩⟩
  · intro i hi
    obtain ⟨a, b, c⟩ := hf1 i hi
    exact ⟨fixP_keep _ _ a, fixP_keep _ _ b, ite_fixP_keep _ _ _ c⟩
  · intro i hi
    exact fixP_keep _ _ (hf2 i hi)
  · intro i hiz hit
    exact fixP_keep _ _ (hf3 i hiz hit)
  · intro i hi
    obtain ⟨a, b, c⟩ := hv1 i hi
    refine ⟨a, b, ?_⟩
    show (if m.isSurfSpecSet = true then fixP m.q p else m.q).val i = m0.q.val i
    rw [ite_fixP_val]
    exact c
  · intro i hi
    exact hv2 i hi
  · intro i hiz hit
    exact hv3 i hiz hit

lemma contWInv_of_contInv (m0 m : Model) (h : ContInv m0 m) : ContWInv m0 m :=
  ⟨h.1, h.2.2, fun _ i hi => (h.2.1.1 i hi).2.2⟩

lemma contWInv_holdUnfix (m0 m : Model) (p : VIdx → Prop) [DecidablePred p]
    (h : ContWInv m0 m) : ContWInv m0 (holdUnfix p m) := by
  obtain ⟨hg, ⟨hv1, hv2, hv3⟩, hq⟩ := h
  refine ⟨hg, ⟨?_, ?_, ?_⟩, ?_⟩
  · intro i hi
    obtain ⟨a, b, c⟩ := hv1 i hi
    refine ⟨a, b, ?_⟩
    show (if m.isSurfSpecSet = true then unfixP m.q p else m.q).val i = m0.q.val i
    rw [ite_unfixP_val]
    exact c
  · intro i hi
    exact hv2 i hi
  · intro i hiz hit
    exact hv3 i hiz hit
  · intro hflag i hi
    have hflag' : m.isSurfSpecSet = false := hflag
    show (if m.isSurfSpecSet = true then unfixP m.q p else m.q).fix i = true
    rw [if_neg (by simp [hflag'])]
    exact hq hflag' i hi

lemma contInv_refix (m0 m : Model) (h : ContWInv m0 m) :
    ContInv m0 (refix_persistent m) := by
  obtain ⟨hg, ⟨hv1, hv2, hv3⟩, hq⟩ := h
  obtain ⟨ht, hz, ha, hT, hsf, hst⟩ := hg
  refine ⟨⟨ht, hz, ha, hT, hsf, hst⟩, ⟨?_, ?_, ?_⟩, ⟨?_, ?_, ?_⟩⟩
  · intro i hi
    have hit : i.t = m.t.headI := by rw [ht]; exact hi
    refine ⟨fixP_keep _ _ (fixP_mem _ _ hit), fixP_mem _ _ hit, ?_⟩
    show (if m.isSurfSpecSet = true then fixP m.q (fun i => i.t = m.t.headI) else m.q).fix i = true
    by_cases hflag : m.isSurfSpecSet = true
    · rw [if_pos hflag]
      exact fixP_mem _ _ hit
    · rw [if_neg hflag]
      exact hq (by simpa using hflag) i hi
  · intro i hi
    exact fixP_mem _ _ (by rw [hz]; exact hi)
  · intro i hiz hit
    exact fixP_mem _ _ ⟨by rw [hz]; exact hiz, by rw [ht]; exact hit⟩
  · intro i hi
    obtain ⟨a, b, c⟩ := hv1 i hi
    refine ⟨a, b, ?_⟩
    show (if m.isSurfSpecSet = true then fixP m.q (fun i => i.t = m.t.headI) else m.q).val i = m0.q.val i
    rw [ite_fixP_val]
    exact c
  · intro i hi
    exact hv2 i hi
  · intro i hiz hit
    exact hv3 i hiz hit

lemma contInv_solve {solve : Model → Model} (hs : SolverOK solve) (m0 m : Model)
    (h : ContInv m0 m) : ContInv m0 (solve m) := by
  obtain ⟨⟨ht, hz, ha, hT, hsf, hst⟩, ⟨hf1, hf2, hf3⟩, ⟨hv1, hv2, hv3⟩⟩ := h
  refine ⟨⟨?_, ?_, ?_, ?_, ?_, ?_⟩, ⟨?_, ?_, ?_⟩, ⟨?_, ?_, ?_⟩⟩
  · rw [hs.pres_t]; exact ht
  · rw [hs.pres_z]; exact hz
  · rw [hs.pres_age_set]; exact ha
  · rw [hs.pres_T_set]; exact hT
  · rw [hs.pres_surf_flag]; exact hsf
  · rw [hs.pres_sites_flag]; exact hst
  · intro i hi
    obtain ⟨a, b, c⟩ := hf1 i hi
    rw [hs.pres_fix_Cb, hs.pres_fix_C, hs.pres_fix_q]
    exact ⟨a, b, c⟩
  · intro i hi
    rw [hs.pres_fix_Cb]
    exact hf2 i hi
  · intro i hiz hit
    rw [hs.pres_fix_dCb_dt]
    exact hf3 i hiz hit
  · intro i hi
    obtain ⟨a, b, c⟩ := hv1 i hi
    obtain ⟨a2, b2, c2⟩ := hf1 i hi
    exact ⟨(hs.pres_val_Cb m i a2).trans a, (hs.pres_val_C m i b2).trans b,
      (hs.pres_val_q m i c2).trans c⟩
  · intro i hi
    exact (hs.pres_val_Cb m i (hf2 i hi)).trans (hv2 i hi)
  · intro i hiz hit
    exact (hs.pres_val_dCb_dt m i (hf3 i hiz hit)).trans (hv3 i hiz hit)



lemma contInv_inner {solve : Model → Model} (hs : SolverOK solve)
    (m0 : Model) (age_solve temp_solve : ℕ) (tsolve : ℚ) (m : Model)
    (h : ContInv m0 m) :
    ContInv m0 (inner_time_step solve age_solve temp_solve tsolve m) := by
  unfold inner_time_step
  refine foldl_preserve (ContInv m0) _ ?_ _ _
    (contInv_solve hs m0 _ (foldl_preserve (ContInv m0) _ ?_ _ _ h))
  · intro s th hP
    refine contInv_refix m0 _ ?_
    by_cases he : tsolve = th
    · rw [if_pos he]
      exact contWInv_of_contInv m0 s hP
    · rw [if_neg he]
      exact contWInv_holdUnfix m0 s _ (contWInv_of_contInv m0 s hP)
  · intro s th hP
    by_cases he : tsolve = th
    · rw [if_pos he]
      exact hP
    · rw [if_neg he]
      exact contInv_holdFix m0 s _ hP

lemma contInv_time_loop {solve : Model → Model} (hs : SolverOK solve)
    (m0 : Model) (age_solve temp_solve : ℕ) (m : Model) (h : ContInv m0 m) :
    ContInv m0 (time_loop solve age_solve temp_solve m) := by
  unfold time_loop
  have key : ∀ (l : List ℚ) (st : ℕ × Model), ContInv m0 st.2 →
      ContInv m0 (l.foldl (fun (st : ℕ × Model) tsolve =>
        (st.1 + 1, if st.1 > 0 then inner_time_step solve age_solve temp_solve tsolve st.2
                   else st.2)) st).2 := by
    intro l
    refine fun st hst => foldl_preserve (fun st : ℕ × Model => ContInv m0 st.2) _ ?_ l st hst
    intro s a hP
    dsimp only
    by_cases hgt : s.1 > 0
    · rw [if_pos hgt]
      exact contInv_inner hs m0 age_solve temp_solve a s.2 hP
    · rw [if_neg hgt]
      exact hP
  exact key m.t (0, m) h

lemma contInv_outer {solve : Model → Model} (hs : SolverOK solve)
    (m0 : Model) (age_solve temp_solve : ℕ) (m : Model) (h : ContInv m0 m) :
    ContInv m0 (outer_body solve age_solve temp_solve m) := by
  unfold outer_body
  refine contInv_refix m0 _ ?_
  refine foldl_preserve (ContWInv m0) _ ?_ _ _
    (foldl_preserve (ContWInv m0) _ ?_ _ _ (contWInv_of_contInv m0 _
      (contInv_time_loop hs m0 age_solve temp_solve _
        (foldl_preserve (ContInv m0) _ ?_ _ _
          (foldl_preserve (ContInv m0) _ ?_ _ _ h)))))
  · intro s th hP
    by_cases he : temp_solve = th
    · rw [if_pos he]; exact hP
    · rw [if_neg he]; exact contWInv_holdUnfix m0 s _ hP
  · intro s ah hP
    by_cases he : age_solve = ah
    · rw [if_pos he]; exact hP
    · rw [if_neg he]; exact contWInv_holdUnfix m0 s _ hP
  · intro s th hP
    by_cases he : temp_solve = th
    · rw [if_pos he]; exact hP
    · rw [if_neg he]; exact contInv_holdFix m0 s _ hP
  · intro s ah hP
    by_cases he : age_solve = ah
    · rw [if_pos he]; exact hP
    · rw [if_neg he]; exact contInv_holdFix m0 s _ hP

lemma contInv_fix_all (m0 m : Model) (h : ContInv m0 m) :
    ContInv m0 (fix_all_reactions m) := h

lemma contInv_unfix (m0 m : Model) (r : String) (h : ContInv m0 m) :
    ContInv m0 (unfix_reaction r m) := by
  unfold unfix_reaction
  dsimp only
  by_cases h1 : r ∈ m.arrhenius_rxns
  · rw [if_pos h1]
    by_cases h2 : r ∈ m.equ_arrhenius_rxns
    · rw [if_pos h2]
      exact h
    · rw [if_neg h2]
      exact h
  · rw [if_neg h1]
    by_cases h2 : r ∈ m.equ_arrhenius_rxns
    · rw [if_pos h2]
      exact h
    · rw [if_neg h2]
      exact h



/-- Claim C7: for any discretized model whose persistent fixings
(initial conditions at the first time, boundary values of `Cb` at the
first location, and the `dCb_dt` pin at (first location, first time))
are in place, and any external solver satisfying the `SolverOK` frame
conditions, a successful `initialize_simulator` run leaves every one of
those values identical to its pre-call value and leaves all of them
fixed — including the `dCb_dt` pin, fixed after the run just as
`discretize_model` fixed it before. -/
theorem C7_thm (solve : Model → Model) (m m' : Model) (hs : SolverOK solve)
    (hpf : persistsFixedAt m m) (hok : init_simulator solve m = .ok m') :
    persistsFixedAt m m' ∧ valsPreserved m m' := by
  unfold init_simulator at hok
  by_cases hb : m.gas_set.any (fun sp => !m.isBoundarySet sp)
  · rw [if_pos hb] at hok; cases hok
  · rw [if_neg hb] at hok
    cases hok
    have h0 : ContInv m m :=
      ⟨⟨rfl, rfl, rfl, rfl, rfl, rfl⟩, hpf,
       ⟨fun i _ => ⟨rfl, rfl, rfl⟩, fun i _ => rfl, fun i _ _ => rfl⟩⟩
    have h1 : ContInv m (fix_all_reactions m) := contInv_fix_all m m h0
    have h2 : ContInv m ((fix_all_reactions m).age_set.foldl
        (fun mm age_solve => mm.T_set.foldl
          (fun mmm temp_solve => outer_body solve age_solve temp_solve mmm) mm)
        (fix_all_reactions m)) := by
      refine foldl_preserve (ContInv m) _ ?_ _ _ h1
      intro s a hP
      refine foldl_preserve (ContInv m) _ ?_ _ _ hP
      intro s2 tp hP2
      exact contInv_outer hs m a tp s2 hP2
    have h3 := foldl_preserve (ContInv m)
      (fun mm r => if m.rxn_fixed r = false then unfix_reaction r mm else mm) ?_
      m.rxn_list _ h2
    · exact ⟨h3.2.1, h3.2.2⟩
    · intro s r hP
      dsimp only
      by_cases hrf : m.rxn_fixed r = false
      · rw [if_pos hrf]
        exact contInv_unfix m s r hP
      · rw [if_neg hrf]
        exact hP

/-- The identity solver satisfies every frame condition. -/
lemma solverOK_id : SolverOK id := by
  constructor <;> intros <;> rfl

/-- Witness for claim C7: the staged run on the concrete model `C7m`
with the identity solver. -/
theorem C7_witness :
    C7m.dCb_dt.fix ⟨"A", 0, 0, 0, 0⟩ = true ∧
    (C7final.Cb.val ⟨"A", 0, 0, 1, 0⟩ = C7m.Cb.val ⟨"A", 0, 0, 1, 0⟩ ∧
     C7final.C.val ⟨"A", 0, 0, 1, 0⟩ = C7m.C.val ⟨"A", 0, 0, 1, 0⟩ ∧
     C7final.Cb.val ⟨"A", 0, 0, 0, 1⟩ = C7m.Cb.val ⟨"A", 0, 0, 0, 1⟩ ∧
     C7final.dCb_dt.fix ⟨"A", 0, 0, 0, 0⟩ = true ∧
     C7final.dCb_dt.val ⟨"A", 0, 0, 0, 0⟩ = C7m.dCb_dt.val ⟨"A", 0, 0, 0, 0⟩) := by
  have hpf : persistsFixedAt C7m C7m :=
    ⟨fun i _ => ⟨rfl, rfl, rfl⟩, fun i _ => rfl, fun i _ _ => rfl⟩
  have hok : init_simulator id C7m = .ok C7final := rfl
  have h := C7_thm id C7m C7final solverOK_id hpf hok
  refine ⟨rfl, ?_, ?_, ?_, ?_, ?_⟩
  · exact (h.2.1 ⟨"A", 0, 0, 1, 0⟩ (by decide)).1
  · exact (h.2.1 ⟨"A", 0, 0, 1, 0⟩ (by decide)).2.1
  · exact h.2.2.1 ⟨"A", 0, 0, 0, 1⟩ (by decide)
  · exact h.1.2.2 ⟨"A", 0, 0, 0, 0⟩ (by decide) (by decide)
  · exact h.2.2.2 ⟨"A", 0, 0, 0, 0⟩ (by decide) (by decide)



lemma rxnEq_solve {solve : Model → Model} (hs : SolverOK solve) (mr s : Model)
    (h : rxnStateEq mr s) : rxnStateEq mr (solve s) := by
  obtain ⟨h1, h2, h3, h4, h5, h6, h7, h8, h9, h10, h11⟩ := h
  exact ⟨(hs.pres_Afixed s).trans h1, (hs.pres_Bfixed s).trans h2,
    (hs.pres_Efixed s).trans h3, (hs.pres_Affixed s).trans h4,
    (hs.pres_Effixed s).trans h5, (hs.pres_dHfixed s).trans h6,
    (hs.pres_dSfixed s).trans h7, (hs.pres_rxn_fixed s).trans h8,
    (hs.pres_arr s).trans h9, (hs.pres_equ s).trans h10,
    (hs.pres_rxn_list s).trans h11⟩

lemma rxnEq_inner {solve : Model → Model} (hs : SolverOK solve) (mr : Model)
    (a tp : ℕ) (ts : ℚ) (s : Model) (h : rxnStateEq mr s) :
    rxnStateEq mr (inner_time_step solve a tp ts s) := by
  unfold inner_time_step
  refine foldl_preserve (rxnStateEq mr) _ ?_ _ _
    (rxnEq_solve hs mr _ (foldl_preserve (rxnStateEq mr) _ ?_ _ _ h))
  · intro s2 th hP
    dsimp only
    by_cases he : ts = th
    · rw [if_pos he]; exact hP
    · rw [if_neg he]; exact hP
  · intro s2 th hP
    dsimp only
    by_cases he : ts = th
    · rw [if_pos he]; exact hP
    · rw [if_neg he]; exact hP

lemma rxnEq_time_loop {solve : Model → Model} (hs : SolverOK solve) (mr : Model)
    (a tp : ℕ) (s : Model) (h : rxnStateEq mr s) :
    rxnStateEq mr (time_loop solve a tp s) := by
  unfold time_loop
  have key := foldl_preserve (fun st : ℕ × Model => rxnStateEq mr st.2)
    (fun (st : ℕ × Model) tsolve =>
      (st.1 + 1, if st.1 > 0 then inner_time_step solve a tp tsolve st.2 else st.2)) ?_
    s.t (0, s) h
  · exact key
  · intro st a2 hP
    dsimp only
    by_cases hgt : st.1 > 0
    · rw [if_pos hgt]
      exact rxnEq_inner hs mr a tp a2 st.2 hP
    · rw [if_neg hgt]
      exact hP

lemma rxnEq_outer {solve : Model → Model} (hs : SolverOK solve) (mr : Model)
    (a tp : ℕ) (s : Model) (h : rxnStateEq mr s) :
    rxnStateEq mr (outer_body solve a tp s) := by
  unfold outer_body
  have step1 : ∀ (s2 : Model) (ah : ℕ), rxnStateEq mr s2 →
      rxnStateEq mr (if a = ah then s2 else holdFix (fun i => i.age = ah) s2) := by
    intro s2 ah hP
    by_cases he : a = ah
    · rw [if_pos he]; exact hP
    · rw [if_neg he]; exact hP
  have step2 : ∀ (s2 : Model) (th : ℕ), rxnStateEq mr s2 →
      rxnStateEq mr (if tp = th then s2 else holdFix (fun i => i.temp = th) s2) := by
    intro s2 th hP
    by_cases he : tp = th
    · rw [if_pos he]; exact hP
    · rw [if_neg he]; exact hP
  have step3 : ∀ (s2 : Model) (ah : ℕ), rxnStateEq mr s2 →
      rxnStateEq mr (if a = ah then s2 else holdUnfix (fun i => i.age = ah) s2) := by
    intro s2 ah hP
    by_cases he : a = ah
    · rw [if_pos he]; exact hP
    · rw [if_neg he]; exact hP
  have step4 : ∀ (s2 : Model) (th : ℕ), rxnStateEq mr s2 →
      rxnStateEq mr (if tp = th then s2 else holdUnfix (fun i => i.temp = th) s2) := by
    intro s2 th hP
    by_cases he : tp = th
    · rw [if_pos he]; exact hP
    · rw [if_neg he]; exact hP
  exact foldl_preserve (rxnStateEq mr) _ step4 _ _
    (foldl_preserve (rxnStateEq mr) _ step3 _ _
      (rxnEq_time_loop hs mr a tp _
        (foldl_preserve (rxnStateEq mr) _ step2 _ _
          (foldl_preserve (rxnStateEq mr) _ step1 _ _ h))))

lemma unfix_frame (r : String) (mm : Model) :
    (unfix_reaction r mm).arrhenius_rxns = mm.arrhenius_rxns ∧
    (unfix_reaction r mm).equ_arrhenius_rxns = mm.equ_arrhenius_rxns ∧
    (unfix_reaction r mm).rxn_list = mm.rxn_list := by
  unfold unfix_reaction
  dsimp only
  by_cases h1 : r ∈ mm.arrhenius_rxns
  · rw [if_pos h1]
    by_cases h2 : r ∈ mm.equ_arrhenius_rxns
    · rw [if_pos h2]; exact ⟨rfl, rfl, rfl⟩
    · rw [if_neg h2]; exact ⟨rfl, rfl, rfl⟩
  · rw [if_neg h1]
    by_cases h2 : r ∈ mm.equ_arrhenius_rxns
    · rw [if_pos h2]; exact ⟨rfl, rfl, rfl⟩
    · rw [if_neg h2]; exact ⟨rfl, rfl, rfl⟩

lemma unfix_Afixed (r : String) (mm : Model) (x : String) :
    (unfix_reaction r mm).Afixed x =
      if x = r ∧ x ∈ mm.arrhenius_rxns then false else mm.Afixed x := by
  unfold unfix_reaction
  dsimp only
  by_cases h1 : r ∈ mm.arrhenius_rxns
  · rw [if_pos h1]
    by_cases h2 : r ∈ mm.equ_arrhenius_rxns
    · rw [if_pos h2]
      by_cases hx : x = r <;> simp [setB, hx, h1]
    · rw [if_neg h2]
      by_cases hx : x = r <;> simp [setB, hx, h1]
  · rw [if_neg h1]
    by_cases h2 : r ∈ mm.equ_arrhenius_rxns
    · rw [if_pos h2]
      by_cases hx : x = r <;> simp [setB, hx, h1]
    · rw [if_neg h2]
      by_cases hx : x = r <;> simp [setB, hx, h1]

lemma unfix_Bfixed (r : String) (mm : Model) (x : String) :
    (unfix_reaction r mm).Bfixed x =
      if x = r ∧ x ∈ mm.arrhenius_rxns then false else mm.Bfixed x := by
  unfold unfix_reaction
  dsimp only
  by_cases h1 : r ∈ mm.arrhenius_rxns
  · rw [if_pos h1]
    by_cases h2 : r ∈ mm.equ_arrhenius_rxns
    · rw [if_pos h2]
      by_cases hx : x = r <;> simp [setB, hx, h1]
    · rw [if_neg h2]
      by_cases hx : x = r <;> simp [setB, hx, h1]
  · rw [if_neg h1]
    by_cases h2 : r ∈ mm.equ_arrhenius_rxns
    · rw [if_pos h2]
      by_cases hx : x = r <;> simp [setB, hx, h1]
    · rw [if_neg h2]
      by_cases hx : x = r <;> simp [setB, hx, h1]

lemma unfix_Efixed (r : String) (mm : Model) (x : String) :
    (unfix_reaction r mm).Efixed x =
      if x = r ∧ x ∈ mm.arrhenius_rxns then false else mm.Efixed x := by
  unfold unfix_reaction
  dsimp only
  by_cases h1 : r ∈ mm.arrhenius_rxns
  · rw [if_pos h1]
    by_cases h2 : r ∈ mm.equ_arrhenius_rxns
    · rw [if_pos h2]
      by_cases hx : x = r <;> simp [setB, hx, h1]
    · rw [if_neg h2]
      by_cases hx : x = r <;> simp [setB, hx, h1]
  · rw [if_neg h1]
    by_cases h2 : r ∈ mm.equ_arrhenius_rxns
    · rw [if_pos h2]
      by_cases hx : x = r <;> simp [setB, hx, h1]
    · rw [if_neg h2]
      by_cases hx : x = r <;> simp [setB, hx, h1]

lemma unfix_Affixed (r : String) (mm : Model) (x : String) :
    (unfix_reaction r mm).Affixed x =
      if x = r ∧ x ∈ mm.equ_arrhenius_rxns then false else mm.Affixed x := by
  unfold unfix_reaction
  dsimp only
  by_cases h1 : r ∈ mm.arrhenius_rxns
  · rw [if_pos h1]
    by_cases h2 : r ∈ mm.equ_arrhenius_rxns
    · rw [if_pos h2]
      by_cases hx : x = r <;> simp [setB, hx, h2]
    · rw [if_neg h2]
      by_cases hx : x = r <;> simp [setB, hx, h2]
  · rw [if_neg h1]
    by_cases h2 : r ∈ mm.equ_arrhenius_rxns
    · rw [if_pos h2]
      by_cases hx : x = r <;> simp [setB, hx, h2]
    · rw [if_neg h2]
      by_cases hx : x = r <;> simp [setB, hx, h2]

lemma unfix_Effixed (r : String) (mm : Model) (x : String) :
    (unfix_reaction r mm).Effixed x =
      if x = r ∧ x ∈ mm.equ_arrhenius_rxns then false else mm.Effixed x := by
  unfold unfix_reaction
  dsimp only
  by_cases h1 : r ∈ mm.arrhenius_rxns
  · rw [if_pos h1]
    by_cases h2 : r ∈ mm.equ_arrhenius_rxns
    · rw [if_pos h2]
      by_cases hx : x = r <;> simp [setB, hx, h2]
    · rw [if_neg h2]
      by_cases hx : x = r <;> simp [setB, hx, h2]
  · rw [if_neg h1]
    by_cases h2 : r ∈ mm.equ_arrhenius_rxns
    · rw [if_pos h2]
      by_cases hx : x = r <;> simp [setB, hx, h2]
    · rw [if_neg h2]
      by_cases hx : x = r <;> simp [setB, hx, h2]

lemma unfix_dHfixed (r : String) (mm : Model) (x : String) :
    (unfix_reaction r mm).dHfixed x =
      if x = r ∧ x ∈ mm.equ_arrhenius_rxns then false else mm.dHfixed x := by
  unfold unfix_reaction
  dsimp only
  by_cases h1 : r ∈ mm.arrhenius_rxns
  · rw [if_pos h1]
    by_cases h2 : r ∈ mm.equ_arrhenius_rxns
    · rw [if_pos h2]
      by_cases hx : x = r <;> simp [setB, hx, h2]
    · rw [if_neg h2]
      by_cases hx : x = r <;> simp [setB, hx, h2]
  · rw [if_neg h1]
    by_cases h2 : r ∈ mm.equ_arrhenius_rxns
    · rw [if_pos h2]
      by_cases hx : x = r <;> simp [setB, hx, h2]
    · rw [if_neg h2]
      by_cases hx : x = r <;> simp [setB, hx, h2]

lemma unfix_dSfixed (r : String) (mm : Model) (x : String) :
    (unfix_reaction r mm).dSfixed x =
      if x = r ∧ x ∈ mm.equ_arrhenius_rxns then false else mm.dSfixed x := by
  unfold unfix_reaction
  dsimp only
  by_cases h1 : r ∈ mm.arrhenius_rxns
  · rw [if_pos h1]
    by_cases h2 : r ∈ mm.equ_arrhenius_rxns
    · rw [if_pos h2]
      by_cases hx : x = r <;> simp [setB, hx, h2]
    · rw [if_neg h2]
      by_cases hx : x = r <;> simp [setB, hx, h2]
  · rw [if_neg h1]
    by_cases h2 : r ∈ mm.equ_arrhenius_rxns
    · rw [if_pos h2]
      by_cases hx : x = r <;> simp [setB, hx, h2]
    · rw [if_neg h2]
      by_cases hx : x = r <;> simp [setB, hx, h2]

lemma unfix_rxn_fixed (r : String) (mm : Model) (x : String) :
    (unfix_reaction r mm).rxn_fixed x =
      if x = r ∧ (x ∈ mm.arrhenius_rxns ∨ x ∈ mm.equ_arrhenius_rxns) then false
      else mm.rxn_fixed x := by
  unfold unfix_reaction
  dsimp only
  by_cases h1 : r ∈ mm.arrhenius_rxns
  · rw [if_pos h1]
    by_cases h2 : r ∈ mm.equ_arrhenius_rxns
    · rw [if_pos h2]
      by_cases hx : x = r <;> simp [setB, hx, h1, h2]
    · rw [if_neg h2]
      by_cases hx : x = r <;> simp [setB, hx, h1, h2]
  · rw [if_neg h1]
    by_cases h2 : r ∈ mm.equ_arrhenius_rxns
    · rw [if_pos h2]
      by_cases hx : x = r <;> simp [setB, hx, h1, h2]
    · rw [if_neg h2]
      by_cases hx : x = r <;> simp [setB, hx, h1, h2]



lemma final_unfix_field (snap : String → Bool) (read : Model → String → Bool)
    (isKind : Model → String → Prop) [inst : ∀ mm x, Decidable (isKind mm x)]
    (hread : ∀ r mm x, read (unfix_reaction r mm) x =
      if x = r ∧ isKind mm x then false else read mm x)
    (hcond : ∀ r mm x, isKind (unfix_reaction r mm) x ↔ isKind mm x) :
    ∀ (l : List String) (mm : Model) (x : String),
      read (l.foldl (fun acc r => if snap r = false then unfix_reaction r acc else acc) mm) x =
      if x ∈ l ∧ snap x = false ∧ isKind mm x then false else read mm x := by
  intro l
  induction l with
  | nil => intro mm x; simp
  | cons r rest ih =>
    intro mm x
    simp only [List.foldl_cons]
    by_cases hr : snap r = false
    · rw [if_pos hr, ih, hread]
      by_cases hx : x = r
      · subst hx
        by_cases ha : isKind mm x <;>
          by_cases hmem : x ∈ rest <;>
            simp [ha, hr, hmem, hcond, List.mem_cons]
      · by_cases hmem : x ∈ rest <;> by_cases hsx : snap x = false <;>
          by_cases ha : isKind mm x <;>
            simp [hx, hmem, hsx, ha, hcond, List.mem_cons]
    · rw [if_neg hr, ih]
      by_cases hx : x = r
      · subst hx
        simp [hr, List.mem_cons]
      · simp [hx, List.mem_cons]

/-- Claim C8: `initialize_simulator` first fixes all kinetic parameters
of every reaction regardless of their pre-call state (the `fix_all_reactions`
stage it invokes fixes every parameter of every declared reaction), and
after all (age, temperature) pairs are processed the per-reaction
fixed/free flags are restored exactly to their pre-call values, with each
reaction's parameters ending fixed exactly when its pre-call flag was
`True` — reactions whose flag was `False` are unfixed again and nothing
else stays fixed. -/
theorem C8_thm (solve : Model → Model) (m m' : Model) (hs : SolverOK solve)
    (hcov : ∀ r, r ∈ m.arrhenius_rxns ∨ r ∈ m.equ_arrhenius_rxns → r ∈ m.rxn_list)
    (hok : init_simulator solve m = .ok m') :
    (∀ (s : Model), ∀ r ∈ s.arrhenius_rxns,
      (fix_all_reactions s).Afixed r = true ∧ (fix_all_reactions s).Bfixed r = true ∧
      (fix_all_reactions s).Efixed r = true ∧ (fix_all_reactions s).rxn_fixed r = true) ∧
    (∀ (s : Model), ∀ r ∈ s.equ_arrhenius_rxns,
      (fix_all_reactions s).Affixed r = true ∧ (fix_all_reactions s).Effixed r = true ∧
      (fix_all_reactions s).dHfixed r = true ∧ (fix_all_reactions s).dSfixed r = true ∧
      (fix_all_reactions s).rxn_fixed r = true) ∧
    (∀ r, m'.rxn_fixed r = m.rxn_fixed r) ∧
    (∀ r ∈ m.arrhenius_rxns,
      m'.Afixed r = m.rxn_fixed r ∧ m'.Bfixed r = m.rxn_fixed r ∧
      m'.Efixed r = m.rxn_fixed r) ∧
    (∀ r ∈ m.equ_arrhenius_rxns,
      m'.Affixed r = m.rxn_fixed r ∧ m'.Effixed r = m.rxn_fixed r ∧
      m'.dHfixed r = m.rxn_fixed r ∧ m'.dSfixed r = m.rxn_fixed r) := by
  have hfixall1 : ∀ (s : Model), ∀ r ∈ s.arrhenius_rxns,
      (fix_all_reactions s).Afixed r = true ∧ (fix_all_reactions s).Bfixed r = true ∧
      (fix_all_reactions s).Efixed r = true ∧ (fix_all_reactions s).rxn_fixed r = true := by
    intro s r hr
    refine ⟨?_, ?_, ?_, ?_⟩ <;>
      · show (if _ then true else _) = true
        rw [if_pos]
        first
          | exact hr
          | exact Or.inl hr
  have hfixall2 : ∀ (s : Model), ∀ r ∈ s.equ_arrhenius_rxns,
      (fix_all_reactions s).Affixed r = true ∧ (fix_all_reactions s).Effixed r = true ∧
      (fix_all_reactions s).dHfixed r = true ∧ (fix_all_reactions s).dSfixed r = true ∧
      (fix_all_reactions s).rxn_fixed r = true := by
    intro s r hr
    refine ⟨?_, ?_, ?_, ?_, ?_⟩ <;>
      · show (if _ then true else _) = true
        rw [if_pos]
        first
          | exact hr
          | exact Or.inr hr
  unfold init_simulator at hok
  by_cases hb : m.gas_set.any (fun sp => !m.isBoundarySet sp)
  · rw [if_pos hb] at hok; cases hok
  · rw [if_neg hb] at hok
    cases hok
    set m1 := fix_all_reactions m with hm1
    have hEq : rxnStateEq m1 (m1.age_set.foldl
        (fun mm age_solve => mm.T_set.foldl
          (fun mmm temp_solve => outer_body solve age_solve temp_solve mmm) mm) m1) := by
      refine foldl_preserve (rxnStateEq m1) _ ?_ _ _
        ⟨rfl, rfl, rfl, rfl, rfl, rfl, rfl, rfl, rfl, rfl, rfl⟩
      intro s a hP
      refine foldl_preserve (rxnStateEq m1) _ ?_ _ _ hP
      intro s2 tp hP2
      exact rxnEq_outer hs m1 a tp s2 hP2
    set m2 := m1.age_set.foldl
        (fun mm age_solve => mm.T_set.foldl
          (fun mmm temp_solve => outer_body solve age_solve temp_solve mmm) mm) m1 with hm2
    obtain ⟨eA, eB, eE, eAf, eEf, edH, edS, erf, earr, eequ, elist⟩ := hEq
    have harr1 : m1.arrhenius_rxns = m.arrhenius_rxns := rfl
    have hequ1 : m1.equ_arrhenius_rxns = m.equ_arrhenius_rxns := rfl
    refine ⟨hfixall1, hfixall2, ?_, ?_, ?_⟩
    · intro r
      rw [final_unfix_field m.rxn_fixed (fun mm x => mm.rxn_fixed x)
        (fun mm x => x ∈ mm.arrhenius_rxns ∨ x ∈ mm.equ_arrhenius_rxns)
        unfix_rxn_fixed
        (fun r2 mm x => by
          dsimp only
          rw [(unfix_frame r2 mm).1, (unfix_frame r2 mm).2.1])]
      rw [erf, earr, eequ, harr1, hequ1]
      by_cases hk : r ∈ m.arrhenius_rxns ∨ r ∈ m.equ_arrhenius_rxns
      · by_cases hsnap : m.rxn_fixed r = false
        · rw [if_pos ⟨hcov r hk, hsnap, hk⟩]
          exact hsnap.symm
        · rw [if_neg (fun hc => hsnap hc.2.1)]
          show m1.rxn_fixed r = m.rxn_fixed r
          have : m1.rxn_fixed r = true := by
            show (if _ then true else _) = true
            rw [if_pos hk]
          rw [this]
          cases hmr : m.rxn_fixed r
          · exact absurd hmr hsnap
          · rfl
      · rw [if_neg (fun hc => hk hc.2.2)]
        show m1.rxn_fixed r = m.rxn_fixed r
        show (if _ then true else _) = m.rxn_fixed r
        rw [if_neg hk]
    · intro r hr
      have harr2 : m2.arrhenius_rxns = m.arrhenius_rxns := earr.trans harr1
      have key : ∀ (read : Model → String → Bool)
          (hread : ∀ r2 mm x, read (unfix_reaction r2 mm) x =
            if x = r2 ∧ x ∈ mm.arrhenius_rxns then false else read mm x)
          (hm2read : read m2 r = true),
          read (m.rxn_list.foldl
            (fun acc r2 => if m.rxn_fixed r2 = false then unfix_reaction r2 acc else acc)
            m2) r = m.rxn_fixed r := by
        intro read hread hm2read
        rw [final_unfix_field m.rxn_fixed read (fun mm x => x ∈ mm.arrhenius_rxns)
          hread (fun r2 mm x => by dsimp only; rw [(unfix_frame r2 mm).1])]
        rw [harr2]
        by_cases hsnap : m.rxn_fixed r = false
        · rw [if_pos ⟨hcov r (Or.inl hr), hsnap, hr⟩]
          exact hsnap.symm
        · rw [if_neg (fun hc => hsnap hc.2.1), hm2read]
          cases hmr : m.rxn_fixed r
          · exact absurd hmr hsnap
          · rfl
      refine ⟨?_, ?_, ?_⟩
      · refine key (fun mm x => mm.Afixed x) unfix_Afixed ?_
        dsimp only
        rw [eA]
        exact (hfixall1 m r hr).1
      · refine key (fun mm x => mm.Bfixed x) unfix_Bfixed ?_
        dsimp only
        rw [eB]
        exact (hfixall1 m r hr).2.1
      · refine key (fun mm x => mm.Efixed x) unfix_Efixed ?_
        dsimp only
        rw [eE]
        exact (hfixall1 m r hr).2.2.1
    · intro r hr
      have hequ2 : m2.equ_arrhenius_rxns = m.equ_arrhenius_rxns := eequ.trans hequ1
      have key : ∀ (read : Model → String → Bool)
          (hread : ∀ r2 mm x, read (unfix_reaction r2 mm) x =
            if x = r2 ∧ x ∈ mm.equ_arrhenius_rxns then false else read mm x)
          (hm2read : read m2 r = true),
          read (m.rxn_list.foldl
            (fun acc r2 => if m.rxn_fixed r2 = false then unfix_reaction r2 acc else acc)
            m2) r = m.rxn_fixed r := by
        intro read hread hm2read
        rw [final_unfix_field m.rxn_fixed read (fun mm x => x ∈ mm.equ_arrhenius_rxns)
          hread (fun r2 mm x => by dsimp only; rw [(unfix_frame r2 mm).2.1])]
        rw [hequ2]
        by_cases hsnap : m.rxn_fixed r = false
        · rw [if_pos ⟨hcov r (Or.inr hr), hsnap, hr⟩]
          exact hsnap.symm
        · rw [if_neg (fun hc => hsnap hc.2.1), hm2read]
          cases hmr : m.rxn_fixed r
          · exact absurd hmr hsnap
          · rfl
      refine ⟨?_, ?_, ?_, ?_⟩
      · refine key (fun mm x => mm.Affixed x) unfix_Affixed ?_
        dsimp only
        rw [eAf]
        exact (hfixall2 m r hr).1
      · refine key (fun mm x => mm.Effixed x) unfix_Effixed ?_
        dsimp only
        rw [eEf]
        exact (hfixall2 m r hr).2.1
      · refine key (fun mm x => mm.dHfixed x) unfix_dHfixed ?_
        dsimp only
        rw [edH]
        exact (hfixall2 m r hr).2.2.1
      · refine key (fun mm x => mm.dSfixed x) unfix_dSfixed ?_
        dsimp only
        rw [edS]
        exact (hfixall2 m r hr).2.2.2.1



/-- Witness for claim C8: on `C8m` only `r2` is fixed before the run,
and afterwards `r1` is free and `r2` fixed, matching the snapshot. -/
theorem C8_witness :
    C8m.rxn_fixed "r1" = false ∧ C8m.rxn_fixed "r2" = true ∧
    (C8final.rxn_fixed "r1" = C8m.rxn_fixed "r1" ∧
     C8final.rxn_fixed "r2" = C8m.rxn_fixed "r2" ∧
     C8final.Afixed "r1" = C8m.rxn_fixed "r1" ∧
     C8final.Bfixed "r1" = C8m.rxn_fixed "r1" ∧
     C8final.Affixed "r2" = C8m.rxn_fixed "r2") := by
  have hcov : ∀ r, r ∈ C8m.arrhenius_rxns ∨ r ∈ C8m.equ_arrhenius_rxns →
      r ∈ C8m.rxn_list := by
    intro r h
    rcases h with h | h
    · have h2 : r ∈ ["r1"] := h
      have h3 : r = "r1" := by simpa using h2
      subst h3
      decide
    · have h2 : r ∈ ["r2"] := h
      have h3 : r = "r2" := by simpa using h2
      subst h3
      decide
  have hok : init_simulator id C8m = .ok C8final := rfl
  have h := C8_thm id C8m C8final solverOK_id hcov hok
  exact ⟨rfl, rfl, h.2.2.1 "r1", h.2.2.1 "r2",
    (h.2.2.2.1 "r1" (by decide)).1, (h.2.2.2.1 "r1" (by decide)).2.1,
    (h.2.2.2.2 "r2" (by decide)).1⟩

end CatsSpec
